import Mathlib

/-!
Verification development for the MADE design-system indexing and query
pipeline (CSS token parser, story parser, index manager, search engine,
component scaffolder).  Each TypeScript function that a claim depends on is
shallow-embedded as an executable Lean definition; strings are modelled as
lists of characters (`Str`), JS objects as structures, JS records as
association lists in insertion order, and JS numbers appearing in similarity
scores as rationals.
-/

set_option maxRecDepth 100000

abbrev Str := List Char

def toL (s : String) : Str := s.toList

/-- ASCII lower-casing of one character, as `String.prototype.toLowerCase`
acts on ASCII input. -/
def lowerChar (c : Char) : Char :=
  if 'A' ≤ c ∧ c ≤ 'Z' then Char.ofNat (c.toNat + 32) else c

def lowerStr (s : Str) : Str := s.map lowerChar

/-- JS `String.prototype.includes`: substring containment. -/
def containsSub (hay needle : Str) : Bool :=
  match hay with
  | [] => needle.isEmpty
  | _ :: t => needle.isPrefixOf hay || containsSub t needle

/-- JS `String.prototype.startsWith`. -/
def startsWithL (hay needle : Str) : Bool := needle.isPrefixOf hay

/-- JS `String.prototype.endsWith`. -/
def endsWithL (hay needle : Str) : Bool := needle.reverse.isPrefixOf hay.reverse

def isWsChar (c : Char) : Bool := c = ' ' ∨ c = '\t' ∨ c = '\n' ∨ c = '\r'

/-- JS `String.prototype.trim`. -/
def trimL (s : Str) : Str :=
  ((s.dropWhile isWsChar).reverse.dropWhile isWsChar).reverse

/-- JS `Array.prototype.join(' ')`. -/
def joinSpace (parts : List Str) : Str :=
  match parts with
  | [] => []
  | [p] => p
  | p :: rest => p ++ ' ' :: joinSpace rest

/-- First-occurrence deduplication with an accumulator of already-seen
elements; this is the order-preserving `[...new Set(xs)]` of JS. -/
def uniqueFirstAux {α : Type} [DecidableEq α] (seen : List α) : List α → List α
  | [] => []
  | a :: t => if a ∈ seen then uniqueFirstAux seen t else a :: uniqueFirstAux (a :: seen) t

def uniqueFirst {α : Type} [DecidableEq α] (l : List α) : List α := uniqueFirstAux [] l

/-- Replace the first occurrence of `pat` in `s` by `rep` (JS
`String.prototype.replace` with a plain-string pattern). -/
def replaceFirstOcc (s pat rep : Str) : Str :=
  match s with
  | [] => if pat.isEmpty then rep else []
  | c :: t => if pat.isPrefixOf s then rep ++ s.drop pat.length
              else c :: replaceFirstOcc t pat rep

/-- Token category enumeration from `src/types.ts`. -/
inductive TokenCategory where
  | color | spacing | typography | shadow | radius | breakpoint | time | other
deriving DecidableEq

/-- `MADEToken` from `src/types.ts`. -/
structure MADEToken where
  name : Str
  value : Str
  category : TokenCategory
  description : Option Str
deriving DecidableEq

instance : Inhabited MADEToken := ⟨⟨[], [], TokenCategory.other, none⟩⟩

/-- Values a caller can put in a scaffold prop bag (`Record<string, any>`
restricted to the scalar shapes the scaffolder distinguishes). -/
inductive PropValue where
  | str (s : Str)
  | num (n : Int)
  | bool (b : Bool)
deriving DecidableEq

/-- `ComponentExample` from `src/types.ts`. -/
structure ComponentExample where
  title : Str
  html : Str
  description : Option Str
  props : List (Str × Str)
deriving DecidableEq

/-- `MADEComponent` from `src/types.ts`. -/
structure MADEComponent where
  name : Str
  description : Str
  tags : List Str
  variants : List (Str × List Str)
  props : List (Str × PropValue)
  a11yNotes : Option (List Str)
  htmlScaffold : Str
  cssClasses : List Str
  cssVarsUsed : List Str
  examples : List ComponentExample
deriving DecidableEq

instance : Inhabited MADEComponent :=
  ⟨⟨[], [], [], [], [], none, [], [], [], []⟩⟩

/-- `IndexMeta` from `src/types.ts`. -/
structure IndexMeta where
  version : Str
  upstreamCommit : Str
  upstreamRef : Str
  buildTime : Str
  componentsCount : Nat
  tokensCount : Nat
deriving DecidableEq

instance : Inhabited IndexMeta := ⟨⟨[], [], [], [], 0, 0⟩⟩

/-- `SearchResult` from `src/types.ts`. -/
structure SearchResult where
  component : Str
  title : Str
  html : Str
  sourcePath : Str
  upstreamRef : Str
deriving DecidableEq

/-- Lookup in a JS-object-as-association-list (object keys are unique; the
first binding wins, matching `record[key]`). -/
def recordLookup {α : Type} (rec : List (Str × α)) (k : Str) : Option α :=
  (rec.find? (fun p => p.1 == k)).map Prod.snd

/-- JS `record[key] = value`: overwrite the existing binding in place, else
append (objects preserve key insertion order). -/
def recordAssign {α : Type} (rec : List (Str × α)) (k : Str) (v : α) : List (Str × α) :=
  match rec with
  | [] => [(k, v)]
  | (k0, v0) :: rest =>
    if k0 = k then (k0, v) :: rest else (k0, v0) :: recordAssign rest k v

/-! ### CSS token parser (`src/parsers/css-parser.ts`) -/

namespace CSSParser

/-- The colour-word alternation regex in `categorizeToken`
(`/red|blue|green|yellow|orange|purple|gray|grey|white|black|teal|gold/`):
an unanchored search, so it means "some alternative occurs as a substring". -/
def colorWordMatch (name : Str) : Bool :=
  [toL "red", toL "blue", toL "green", toL "yellow", toL "orange", toL "purple",
   toL "gray", toL "grey", toL "white", toL "black", toL "teal", toL "gold"].any
    (fun w => containsSub name w)

/-- The regex `\d+(-x)?$` searched in a name: the name ends in a digit, or
ends in `-x` immediately preceded by a digit. -/
def digitSuffixMatch (name : Str) : Bool :=
  (match name.reverse with
   | c :: _ => c.isDigit
   | [] => false)
  ||
  (match name.reverse with
   | 'x' :: '-' :: c :: _ => c.isDigit
   | _ => false)

/-- `CSSParser.categorizeToken`: the ordered substring-rule chain, with JS
operator precedence (`&&` binds tighter than `||`) reproduced exactly. -/
def categorizeToken (tokenName : Str) : TokenCategory :=
  let name := lowerStr tokenName
  if containsSub name (toL "color") || containsSub name (toL "bg") ||
     containsSub name (toL "background") || containsSub name (toL "border") ||
     (containsSub name (toL "text") &&
       (containsSub name (toL "color") || colorWordMatch name)) then
    TokenCategory.color
  else if containsSub name (toL "space") || containsSub name (toL "spacing") ||
     containsSub name (toL "padding") || containsSub name (toL "margin") ||
     containsSub name (toL "gap") ||
     (containsSub name (toL "size") && digitSuffixMatch name) then
    TokenCategory.spacing
  else if containsSub name (toL "font") || containsSub name (toL "text") ||
     containsSub name (toL "line-height") || containsSub name (toL "letter-spacing") ||
     containsSub name (toL "weight") then
    TokenCategory.typography
  else if containsSub name (toL "shadow") || containsSub name (toL "drop-shadow") ||
     containsSub name (toL "elevation") then
    TokenCategory.shadow
  else if containsSub name (toL "radius") || containsSub name (toL "border-radius") ||
     containsSub name (toL "rounded") then
    TokenCategory.radius
  else if containsSub name (toL "time") || containsSub name (toL "duration") ||
     containsSub name (toL "transition") || containsSub name (toL "animation") ||
     containsSub name (toL "slow") || containsSub name (toL "fast") ||
     containsSub name (toL "moderate") then
    TokenCategory.time
  else if containsSub name (toL "z-index") || containsSub name (toL "zindex") ||
     containsSub name (toL "layer") then
    TokenCategory.other
  else if containsSub name (toL "breakpoint") || containsSub name (toL "screen") ||
     containsSub name (toL "container") || containsSub name (toL "viewport") then
    TokenCategory.breakpoint
  else TokenCategory.other

/-- `CSSParser.extractTokenDescription`. -/
def extractTokenDescription (name value : Str) : Str :=
  let category := categorizeToken name
  let cleanName := (replaceFirstOcc name (toL "--made-") []).map
    (fun c => if c = '-' then ' ' else c)
  match category with
  | TokenCategory.color => cleanName ++ toL " color token (" ++ value ++ toL ")"
  | TokenCategory.spacing => cleanName ++ toL " spacing value (" ++ value ++ toL ")"
  | TokenCategory.typography => cleanName ++ toL " typography setting (" ++ value ++ toL ")"
  | TokenCategory.shadow => cleanName ++ toL " shadow effect (" ++ value ++ toL ")"
  | TokenCategory.radius => cleanName ++ toL " border radius (" ++ value ++ toL ")"
  | TokenCategory.breakpoint => cleanName ++ toL " responsive breakpoint (" ++ value ++ toL ")"
  | TokenCategory.time => cleanName ++ toL " design token (" ++ value ++ toL ")"
  | TokenCategory.other => cleanName ++ toL " design token (" ++ value ++ toL ")"

/-- The inline-comment regex of `extractCSSVariables`
(`/^([^\/]+)\/\*\s*(.+?)\s*\*\/$/`): group 1 is the maximal leading
slash-free run (nonempty) immediately followed by the two characters
slash-star; the value must end in star-slash with a nonempty body between
them; the result pairs group 1 with the whitespace-trimmed body (group 2 as
captured, after the trim the caller applies). -/
def inlineCommentMatch (value : Str) : Option (Str × Str) :=
  let g1 := value.takeWhile (fun c => c ≠ '/')
  let rest := value.drop g1.length
  if g1.isEmpty then none
  else if startsWithL rest (toL "/*") then
    let middle := rest.drop 2
    if endsWithL middle (toL "*/") && 3 ≤ middle.length then
      some (g1, trimL (middle.take (middle.length - 2)))
    else none
  else none

/-- CSS declaration node of the `@adobe/css-tools` AST (only the fields the
parser reads). -/
structure CssDeclaration where
  property : Str
  value : Str
deriving DecidableEq

/-- CSS AST nodes the walker can meet: style rules and comments.  Rules
nested inside at-rules are reached by `walkAST` through the at-rule's
`rules` child list and processed identically, so the embedding represents
them lifted into the surrounding rule list. -/
inductive CssNode where
  | rule (selectors : List Str) (declarations : List CssDeclaration)
  | commentNode (text : Str)
deriving DecidableEq

/-- Parsed stylesheet (`stylesheet.rules`). -/
structure CssAst where
  rules : List CssNode
deriving DecidableEq

/-- One declaration of a `:root` rule, as processed by
`extractCSSVariables` lines 204-222: only `--made-` properties produce a
token; an inline trailing block comment overrides the generated description
and is stripped from the value. -/
def tokenOfDeclaration (decl : CssDeclaration) : Option MADEToken :=
  if startsWithL decl.property (toL "--made-") then
    let description0 := extractTokenDescription decl.property decl.value
    match inlineCommentMatch decl.value with
    | some (g1, desc) =>
      some ⟨decl.property, trimL g1, categorizeToken decl.property, some desc⟩
    | none =>
      some ⟨decl.property, decl.value, categorizeToken decl.property, some description0⟩
  else none

/-- The `walkAST` traversal restricted to what the extraction callback
reacts to: every rule node whose selector list contains the exact string
`:root` contributes its `--made-` declarations, in traversal order. -/
def collectRootTokens : List CssNode → List MADEToken
  | [] => []
  | CssNode.rule sels decls :: rest =>
    (if (toL ":root") ∈ sels then decls.filterMap tokenOfDeclaration else []) ++
      collectRootTokens rest
  | CssNode.commentNode _ :: rest => collectRootTokens rest

/-- `CSSParser.extractCSSVariables`: merge newly collected tokens into the
current token list, dropping any new token whose name is already present
(first writer wins). -/
def extractCSSVariables (current : List MADEToken) (ast : CssAst) : List MADEToken :=
  let tokens := collectRootTokens ast.rules
  let existingNames := current.map MADEToken.name
  current ++ tokens.filter (fun t => ¬ t.name ∈ existingNames)

/-- `CSSParser.parseMadeCSSVariables` error handling (lines 166-181), as a
function of the file-read-and-parse outcome: on success the AST is fed to
`extractCSSVariables`; on failure the error is swallowed (returning the
token state unchanged) exactly when its message contains the substring
`property missing`, and re-thrown otherwise. -/
def parseMadeCSSVariablesOutcome (current : List MADEToken)
    (outcome : Except Str CssAst) : Except Str (List MADEToken) :=
  match outcome with
  | Except.ok ast => Except.ok (extractCSSVariables current ast)
  | Except.error msg =>
    if containsSub msg (toL "property missing") then Except.ok current
    else Except.error msg

end CSSParser

/-! ### Index manager (`src/indexing/index-manager.ts`)

The manager holds its dataset behind JS references.  To reason about
aliasing between the authoritative dataset and values handed out by the
read accessors, objects live in an explicit store: `Nat` indices address
token objects, component objects, meta objects, and array objects (an array
object is a list of element-object references).  `getTokens` and
`getComponents` evaluate the spread `[...this.tokens]`, which allocates a
fresh array object holding the same element references; `getIndexMeta`
returns the stored meta reference itself. -/

namespace IndexManager

structure Store where
  tokenObjs : List MADEToken
  compObjs : List MADEComponent
  metaObjs : List IndexMeta
  tokenArrs : List (List Nat)
  compArrs : List (List Nat)
deriving DecidableEq

/-- The manager's fields: `this.tokens` and `this.components` are array
references, `this.indexMeta` is an object reference or null. -/
structure ManagerRefs where
  tokensArr : Nat
  componentsArr : Nat
  metaRef : Option Nat
deriving DecidableEq

/-- Dereference an array of token references into the token values it
presents. -/
def viewTokenArr (st : Store) (arr : Nat) : List MADEToken :=
  (st.tokenArrs.getD arr []).map (fun r => st.tokenObjs.getD r default)

def viewCompArr (st : Store) (arr : Nat) : List MADEComponent :=
  (st.compArrs.getD arr []).map (fun r => st.compObjs.getD r default)

/-- The authoritative in-memory token dataset, as read through
`this.tokens`. -/
def datasetTokens (st : Store) (m : ManagerRefs) : List MADEToken :=
  viewTokenArr st m.tokensArr

def datasetComponents (st : Store) (m : ManagerRefs) : List MADEComponent :=
  viewCompArr st m.componentsArr

def datasetMeta (st : Store) (m : ManagerRefs) : Option IndexMeta :=
  m.metaRef.map (fun r => st.metaObjs.getD r default)

/-- `getTokens(): return [...this.tokens]` — allocate a fresh array object
with the same element references and return the new reference. -/
def getTokensOp (st : Store) (m : ManagerRefs) : Store × Nat :=
  ({ st with tokenArrs := st.tokenArrs ++ [st.tokenArrs.getD m.tokensArr []] },
   st.tokenArrs.length)

/-- `getComponents(): return [...this.components]`. -/
def getComponentsOp (st : Store) (m : ManagerRefs) : Store × Nat :=
  ({ st with compArrs := st.compArrs ++ [st.compArrs.getD m.componentsArr []] },
   st.compArrs.length)

/-- `getIndexMeta(): return this.indexMeta` — no copy, the stored reference
itself. -/
def getIndexMetaOp (_st : Store) (m : ManagerRefs) : Option Nat :=
  m.metaRef

/-- Caller-side mutation of a token object (e.g. assigning to a field of a
token received from an accessor). -/
def mutateTokenObj (st : Store) (r : Nat) (t : MADEToken) : Store :=
  { st with tokenObjs := st.tokenObjs.set r t }

/-- Caller-side mutation of a meta object. -/
def mutateMetaObj (st : Store) (r : Nat) (meta : IndexMeta) : Store :=
  { st with metaObjs := st.metaObjs.set r meta }

/-- Caller-side structural mutation of an array object (pushing, popping,
or replacing elements of an array received from an accessor). -/
def mutateTokenArr (st : Store) (arr : Nat) (contents : List Nat) : Store :=
  { st with tokenArrs := st.tokenArrs.set arr contents }

def mutateCompArr (st : Store) (arr : Nat) (contents : List Nat) : Store :=
  { st with compArrs := st.compArrs.set arr contents }

/-- `IndexManager.findComponentByName` (case-insensitive `Array.find`). -/
def findComponentByName (comps : List MADEComponent) (name : Str) :
    Option MADEComponent :=
  comps.find? (fun c => lowerStr c.name == lowerStr name)

/-- In-memory dataset of the manager by value, for reasoning about the
states a concurrent reader can observe while `buildIndexes` runs. -/
structure ManagerData where
  tokens : List MADEToken
  components : List MADEComponent
  meta : Option IndexMeta
deriving DecidableEq

/-- The dataset states observable at the `await` suspension points of
`buildIndexes(repoPath, ref, commit)` (lines 36-68), in order:
the method first clears `this.tokens` and `this.components` (lines 41-42),
so every suspension inside `parseCSSFiles` shows both collections empty;
`parseCSSFiles` assigns the newly parsed tokens at its end (line 177), so
suspensions inside `parseStorybookFiles` show the new tokens with an empty
component list; `parseStorybookFiles` assigns the components (line 205) and
the meta is assigned synchronously right after (lines 51-58), so the
suspensions inside `saveIndexes` — and every later read — show the complete
new dataset.  The previous meta stays in place until that final assignment. -/
def buildObservableStates (init : ManagerData) (newTokens : List MADEToken)
    (newComps : List MADEComponent) (newMeta : IndexMeta) : List ManagerData :=
  [ { tokens := [], components := [], meta := init.meta },
    { tokens := newTokens, components := [], meta := init.meta },
    { tokens := newTokens, components := newComps, meta := some newMeta } ]

end IndexManager

/-! ### MCP server lookups (`src/mcp-server.ts`, reproduced in
`copilot-test-prompts.md` lines 539-562) -/

namespace MCPServer

/-- `GetComponentResponse` as assembled by `MADEMCPServer.getComponent`. -/
structure GetComponentResponse where
  name : Str
  description : Str
  tags : List Str
  variants : List (Str × List Str)
  props : List (Str × PropValue)
  a11yNotes : List Str
  htmlScaffold : Str
  cssClasses : List Str
  cssVarsUsed : List Str
  examples : List ComponentExample
  html : Str
  classes : List Str
deriving DecidableEq

/-- Field-by-field response construction of `getComponent`, including the
`a11yNotes: component.a11yNotes || []` default and the `html`/`classes`
duplicates of the scaffold and class fields. -/
def responseOfComponent (c : MADEComponent) : GetComponentResponse :=
  { name := c.name
    description := c.description
    tags := c.tags
    variants := c.variants
    props := c.props
    a11yNotes := c.a11yNotes.getD []
    htmlScaffold := c.htmlScaffold
    cssClasses := c.cssClasses
    cssVarsUsed := c.cssVarsUsed
    examples := c.examples
    html := c.htmlScaffold
    classes := c.cssClasses }

/-- `MADEMCPServer.getComponent(name)`: find the first component whose
lowercased name equals the lowercased request, throw
`Component ... not found` (with the literal requested name in quotes)
otherwise. -/
def getComponent (comps : List MADEComponent) (name : Str) :
    Except Str GetComponentResponse :=
  match comps.find? (fun c => lowerStr c.name == lowerStr name) with
  | some c => Except.ok (responseOfComponent c)
  | none => Except.error (toL "Component \x27" ++ name ++ toL "\x27 not found")

end MCPServer

/-! ### Story parser (`src/parsers/storybook-parser.ts`)

The per-file regex extraction helpers (component name, examples, tags, …)
are modelled as the inputs of the per-file step; the structure decisions —
when a component is pushed at all, and how the `variants` record is
assembled from declared `argTypes` options and observed story args — are
embedded from the source. -/

namespace StorybookParser

/-- Outputs of the per-file extraction helpers that `parseMDXStory` /
`parseJSStory` combine into a component. -/
structure StoryFileExtraction where
  componentName : Str
  description : Str
  tags : List Str
  variants : List (Str × List Str)
  props : List (Str × PropValue)
  a11yNotes : List Str
  htmlScaffold : Str
  cssClasses : List Str
  cssVarsUsed : List Str
  examples : List ComponentExample
deriving DecidableEq

/-- The component object literal built by `parseMDXStory` (lines 505-516)
and `parseJSStory` (lines 530-541). -/
def storyComponentOfExtraction (e : StoryFileExtraction) : MADEComponent :=
  { name := e.componentName
    description := e.description
    tags := e.tags
    variants := e.variants
    props := e.props
    a11yNotes := some e.a11yNotes
    htmlScaffold := e.htmlScaffold
    cssClasses := e.cssClasses
    cssVarsUsed := e.cssVarsUsed
    examples := e.examples }

/-- One iteration of the `parseStories` loop over story files: a file whose
parse threw is caught and skipped (`none`); otherwise the component is
pushed exactly when the derived name is truthy (nonempty) and at least one
example was extracted (`if (componentName && examples.length > 0)`). -/
def parseStoryFileStep (comps : List MADEComponent)
    (outcome : Option StoryFileExtraction) : List MADEComponent :=
  match outcome with
  | none => comps
  | some e =>
    if e.componentName ≠ [] ∧ e.examples ≠ [] then
      comps ++ [storyComponentOfExtraction e]
    else comps

/-- `StorybookParser.parseStories`: fold the per-file step over the
discovered story files, starting from the empty component list. -/
def parseStories (files : List (Option StoryFileExtraction)) : List MADEComponent :=
  files.foldl parseStoryFileStep []

/-- `StorybookParser.getComponents`: `[...this.components]` (same element
values). -/
def getComponents (comps : List MADEComponent) : List MADEComponent := comps

/-- Accumulate one observed story-arg occurrence into the
`argValues: Record<string, Set<string>>` map of `extractVariants`:
`if (!argValues[key]) argValues[key] = new Set(); argValues[key].add(value)`. -/
def addArgValue (acc : List (Str × List Str)) (k v : Str) : List (Str × List Str) :=
  match acc with
  | [] => [(k, [v])]
  | (k0, vs) :: rest =>
    if k0 = k then (k0, if v ∈ vs then vs else vs ++ [v]) :: rest
    else (k0, vs) :: addArgValue rest k v

/-- The `argValues` map built by scanning every example's `args` block:
keys in first-appearance order, each holding its distinct observed values
in insertion order (a JS `Set`). -/
def collectArgValues (occurrences : List (Str × Str)) : List (Str × List Str) :=
  occurrences.foldl (fun acc p => addArgValue acc p.1 p.2) []

/-- `StorybookParser.extractVariants` (lines 785-832) over the declared
`argTypes` control options (each `variants[propName] = options` assignment,
in match order) and the observed `(key, value)` story-arg occurrences: the
declared options are assigned unconditionally; an observed axis is assigned
only when more than one distinct value was seen
(`if (valueSet.size > 1)`). -/
def extractVariants (declaredControls : List (Str × List Str))
    (occurrences : List (Str × Str)) : List (Str × List Str) :=
  let fromControls :=
    declaredControls.foldl (fun acc p => recordAssign acc p.1 p.2) []
  (collectArgValues occurrences).foldl
    (fun acc p => if 1 < p.2.length then recordAssign acc p.1 p.2 else acc)
    fromControls

end StorybookParser

/-! ### Component scaffolder (`src/scaffolding/component-scaffolder.ts`)

`applyProps` loads the scaffold markup, selects one target element (first
element with a `made-` class, else the first body child) and mutates it per
prop entry.  The embedding operates on that target element directly: an
element is its tag name, ordered attribute list, and text content; the
cheerio document round-trip is the identity on these observables. -/

namespace ComponentScaffolder

structure ScaffoldElement where
  tag : Str
  attrs : List (Str × Str)
  textContent : Str
deriving DecidableEq

def getAttr (el : ScaffoldElement) (k : Str) : Option Str :=
  (el.attrs.find? (fun p => p.1 == k)).map Prod.snd

def setAttr (el : ScaffoldElement) (k v : Str) : ScaffoldElement :=
  { el with attrs := recordAssign el.attrs k v }

/-- JS `String.prototype.split(/\s+/)`: pieces between maximal whitespace
runs; leading or trailing runs produce empty pieces, and the empty string
yields one empty piece.  The third argument records whether the scanner is
inside a whitespace run whose piece boundary has already been emitted. -/
def jsSplitWsAux : Str → Str → Bool → List Str
  | [], cur, _ => [cur.reverse]
  | c :: rest, cur, inSep =>
    if isWsChar c then
      if inSep then jsSplitWsAux rest cur true
      else cur.reverse :: jsSplitWsAux rest [] true
    else jsSplitWsAux rest (c :: cur) false

def jsSplitWs (s : Str) : List Str := jsSplitWsAux s [] false

/-- Cheerio `addClass`: append the class to the `class` attribute when not
already present among its whitespace-separated classes. -/
def addClassEl (el : ScaffoldElement) (cls : Str) : ScaffoldElement :=
  match getAttr el (toL "class") with
  | none => setAttr el (toL "class") cls
  | some existing =>
    if cls ∈ jsSplitWs existing then el
    else setAttr el (toL "class") (existing ++ ' ' :: cls)

/-- Stringification JS applies when a prop value is written into an
attribute. -/
def propValueToAttr (v : PropValue) : Str :=
  match v with
  | PropValue.str s => s
  | PropValue.num n => toL (toString n)
  | PropValue.bool b => if b then toL "true" else toL "false"

/-- JS truthiness of a prop value (`if (propValue && ...)`). -/
def truthyProp (v : PropValue) : Bool :=
  match v with
  | PropValue.str s => ¬ s.isEmpty
  | PropValue.num n => n ≠ 0
  | PropValue.bool b => b

/-- `ComponentScaffolder.getVariantClass`. -/
def getVariantClass (componentName variantName variantValue : Str) : Str :=
  let baseClass :=
    if lowerStr componentName = toL "button" then toL "made-btn"
    else if lowerStr componentName = toL "card" then toL "made-card"
    else if lowerStr componentName = toL "alert" then toL "made-alert"
    else toL "made-" ++ lowerStr componentName
  if variantName = toL "variant" ∨ variantName = toL "color" then
    baseClass ++ '-' :: variantValue
  else if variantName = toL "size" then
    baseClass ++ '-' :: variantValue
  else if variantName = toL "state" then
    baseClass ++ toL "--" ++ variantValue
  else
    baseClass ++ '-' :: variantName ++ '-' :: variantValue

/-- `ComponentScaffolder.isVariantClass`. -/
def isVariantClass (className componentName variantName : Str) : Bool :=
  let baseClass := toL "made-" ++ lowerStr componentName
  if variantName = toL "variant" ∨ variantName = toL "color" then
    startsWithL className (baseClass ++ ['-']) &&
      !containsSub className (toL "-size-") && !containsSub className (toL "--")
  else if variantName = toL "size" then
    containsSub className (baseClass ++ ['-']) &&
      (containsSub className (toL "-sm") || containsSub className (toL "-lg") ||
       containsSub className (toL "-xl"))
  else if variantName = toL "state" then
    startsWithL className (baseClass ++ toL "--")
  else
    startsWithL className (baseClass ++ '-' :: variantName ++ ['-'])

/-- `ComponentScaffolder.applyVariant`: swap out classes recognized as
belonging to the axis and append the freshly computed variant class. -/
def applyVariant (comp : MADEComponent) (el : ScaffoldElement) (notes : List Str)
    (variantName variantValue : Str) : ScaffoldElement × List Str :=
  let variantClass := getVariantClass comp.name variantName variantValue
  if variantClass ≠ [] then
    let existingClasses :=
      match getAttr el (toL "class") with
      | some s => jsSplitWs s
      | none => []
    let cleaned := existingClasses.filter
      (fun cls => ¬ isVariantClass cls comp.name variantName)
    (setAttr el (toL "class") (joinSpace (cleaned ++ [variantClass])),
     notes ++ [toL "Applied " ++ variantName ++ toL " variant: " ++ variantValue])
  else (el, notes)

/-- `ComponentScaffolder.applyProp` (lines 102-164): the attribute switch
with its element-type guards. -/
def applyProp (el : ScaffoldElement) (notes : List Str) (propName : Str)
    (propValue : PropValue) : ScaffoldElement × List Str :=
  if propName = toL "id" then
    (setAttr el (toL "id") (propValueToAttr propValue), notes)
  else if propName = toL "className" ∨ propName = toL "class" then
    let existing := (getAttr el (toL "class")).getD []
    (setAttr el (toL "class") (trimL (existing ++ ' ' :: propValueToAttr propValue)), notes)
  else if propName = toL "text" ∨ propName = toL "children" then
    match propValue with
    | PropValue.str s => ({ el with textContent := s }, notes)
    | _ => (el, notes)
  else if propName = toL "href" then
    if el.tag = toL "a" then (setAttr el (toL "href") (propValueToAttr propValue), notes)
    else (el, notes)
  else if propName = toL "type" then
    if el.tag ∈ [toL "button", toL "input"] then
      (setAttr el (toL "type") (propValueToAttr propValue), notes)
    else (el, notes)
  else if propName = toL "disabled" then
    if truthyProp propValue ∧
       el.tag ∈ [toL "button", toL "input", toL "select", toL "textarea"] then
      (addClassEl (setAttr el (toL "disabled") (toL "true")) (toL "disabled"), notes)
    else (el, notes)
  else if propName = toL "placeholder" then
    if el.tag ∈ [toL "input", toL "textarea"] then
      (setAttr el (toL "placeholder") (propValueToAttr propValue), notes)
    else (el, notes)
  else if propName = toL "value" then
    if el.tag ∈ [toL "input", toL "textarea", toL "select"] then
      (setAttr el (toL "value") (propValueToAttr propValue), notes)
    else (el, notes)
  else if propName = toL "ariaLabel" then
    (setAttr el (toL "aria-label") (propValueToAttr propValue), notes)
  else if propName = toL "role" then
    (setAttr el (toL "role") (propValueToAttr propValue), notes)
  else
    match propValue with
    | PropValue.str _ =>
      (setAttr el (toL "data-" ++ lowerStr propName) (propValueToAttr propValue),
       notes ++ [toL "Set custom attribute: data-" ++ lowerStr propName])
    | PropValue.num _ =>
      (setAttr el (toL "data-" ++ lowerStr propName) (propValueToAttr propValue),
       notes ++ [toL "Set custom attribute: data-" ++ lowerStr propName])
    | PropValue.bool _ => (el, notes)

/-- The variant-branch condition of `applyProps`:
`component.variants[propName]?.includes(propValue)`. -/
def variantHit (comp : MADEComponent) (propName : Str) (propValue : PropValue) : Bool :=
  match recordLookup comp.variants propName with
  | some vals =>
    match propValue with
    | PropValue.str s => vals.contains s
    | _ => false
  | none => false

/-- The `propName in component.props` test of `applyProps`. -/
def declaredProp (comp : MADEComponent) (propName : Str) : Bool :=
  comp.props.any (fun p => p.1 == propName)

/-- The dispatch allow-list literal on line 67 of `applyProps` — note that
it does not contain `ariaLabel` or `role`. -/
def intrinsicPropNames : List Str :=
  [toL "text", toL "children", toL "id", toL "className", toL "class", toL "href",
   toL "type", toL "disabled", toL "placeholder", toL "value"]

def unknownPropNote (propName compName : Str) : Str :=
  toL "Warning: Unknown prop \x27" ++ propName ++ toL "\x27 for component " ++ compName

/-- One iteration of the `Object.entries(props).forEach` dispatch of
`applyProps` (lines 64-72). -/
def applyPropsStep (comp : MADEComponent) (acc : ScaffoldElement × List Str)
    (entry : Str × PropValue) : ScaffoldElement × List Str :=
  if variantHit comp entry.1 entry.2 then
    match entry.2 with
    | PropValue.str s => applyVariant comp acc.1 acc.2 entry.1 s
    | _ => acc
  else if declaredProp comp entry.1 || intrinsicPropNames.contains entry.1 then
    applyProp acc.1 acc.2 entry.1 entry.2
  else
    (acc.1, acc.2 ++ [unknownPropNote entry.1 comp.name])

/-- `ComponentScaffolder.applyProps` restricted to the target element: fold
the dispatch over the prop entries, collecting notes. -/
def applyProps (comp : MADEComponent) (props : List (Str × PropValue))
    (el : ScaffoldElement) : ScaffoldElement × List Str :=
  props.foldl (applyPropsStep comp) (el, [])

end ComponentScaffolder

/-! ### Search engine (`src/search/search-engine.ts`) -/

namespace SearchEngine

/-- The stop-word list of `isStopWord`. -/
def stopWords : List Str :=
  [toL "the", toL "and", toL "or", toL "but", toL "for", toL "with", toL "a",
   toL "an", toL "as", toL "at", toL "by", toL "in", toL "of", toL "on", toL "to",
   toL "create", toL "make", toL "build", toL "generate", toL "show", toL "display",
   toL "use", toL "using", toL "want", toL "need",
   toL "component", toL "element", toL "html", toL "css", toL "class", toL "style",
   toL "design", toL "system"]

def isStopWord (w : Str) : Bool := stopWords.contains w

/-- Characters kept by `replace(/[^a-z0-9\\s-]/g, ' ')`.  In a regex
literal `\\s` is an escaped backslash followed by the letter `s`, not the
whitespace class, so the kept set is lowercase letters, digits, the
backslash, and the hyphen (the letter `s` is already covered). -/
def allowedTermChar (c : Char) : Bool :=
  ('a' ≤ c ∧ c ≤ 'z') ∨ ('0' ≤ c ∧ c ≤ '9') ∨ c = '\\' ∨ c = '-'

/-- JS `split(/\\s+/)`: in a regex literal this separator is a literal
backslash followed by one or more letters `s` (not whitespace), so pieces
are delimited by such runs.  The third argument records whether the scanner
is still consuming the `s`-run of a separator already emitted. -/
def splitBackslashSAux : Str → Str → Bool → List Str
  | [], cur, _ => [cur.reverse]
  | c :: rest, cur, skippingS =>
    if skippingS ∧ c = 's' then splitBackslashSAux rest cur true
    else if c = '\\' ∧ rest.head? = some 's' then
      cur.reverse :: splitBackslashSAux rest [] true
    else splitBackslashSAux rest (c :: cur) false

def splitBackslashS (s : Str) : List Str := splitBackslashSAux s [] false

/-- `SearchEngine.extractSearchTerms`: lowercase, blank out characters
outside the kept set, split on the (backslash-s) separator, keep pieces
longer than two characters that are not stop words, and de-duplicate
preserving first occurrences. -/
def extractSearchTerms (query : Str) : List Str :=
  let q := lowerStr query
  let replaced := q.map (fun c => if allowedTermChar c then c else ' ')
  let pieces := splitBackslashS replaced
  uniqueFirst ((pieces.filter (fun t => 2 < t.length)).filter (fun t => ¬ isStopWord t))

/-- One inner iteration row of the `levenshteinDistance` matrix: given the
character `c2` of `str2` for this row, the remaining characters of `str1`,
the entry to the left (`matrix[j][i-1]`), and the previous row starting at
`matrix[j-1][i-1]`, produce the entries `matrix[j][i..]`.  Each entry is
`min(left+1, up+1, diag+cost)` with cost 0 on equal characters, as in the
source's inner loop. -/
def levRowRest (c2 : Char) : Str → Nat → List Nat → List Nat
  | [], _, _ => []
  | c1 :: t1, left, diag :: up :: rest =>
    let cost := if c1 = c2 then 0 else 1
    let cur := min (left + 1) (min (up + 1) (diag + cost))
    cur :: levRowRest c2 t1 cur (up :: rest)
  | _ :: _, _, _ => []

/-- Row `j` of the matrix: `matrix[j][0] = j`, then the inner loop over
`str1`. -/
def levRow (c2 : Char) (str1 : Str) (prevRow : List Nat) (j : Nat) : List Nat :=
  j :: levRowRest c2 str1 j prevRow

/-- `SearchEngine.levenshteinDistance`: the dynamic-programming matrix,
built row by row over `str2` from the initial row `0..str1.length`, and
read off at `matrix[str2.length][str1.length]`. -/
def levenshteinDistance (str1 str2 : Str) : Nat :=
  let row0 := List.range (str1.length + 1)
  let final := str2.foldl
    (fun acc c2 => (levRow c2 str1 acc.1 (acc.2 + 1), acc.2 + 1)) (row0, 0)
  final.1.getD str1.length 0

/-- `SearchEngine.calculateSimilarity`: normalized edit-distance
similarity, with JS float division modelled as exact rational division. -/
def calculateSimilarity (s1 s2 : Str) : ℚ :=
  let longer := if s1.length > s2.length then s1 else s2
  let shorter := if s1.length > s2.length then s2 else s1
  if longer.length = 0 then 1
  else ((longer.length : ℚ) - (levenshteinDistance longer shorter : ℚ)) / (longer.length : ℚ)

/-- `SearchEngine.fuzzyMatch`: `calculateSimilarity(text, query) >= 0.7`,
attempted only for queries of length at least 3.  The threshold comparison
is evaluated in exact integer arithmetic
(`(longer - d) / longer >= 7/10  <=>  7 * longer <= 10 * (longer - d)` for
nonempty `longer`); `fuzzyMatch_iff_similarity` below proves this equal to
the rational comparison of `calculateSimilarity`. -/
def fuzzyMatch (text query : Str) : Bool :=
  if query.length < 3 then false
  else
    let longer := if text.length > query.length then text else query
    let shorter := if text.length > query.length then query else text
    if longer.length = 0 then true
    else 7 * longer.length ≤ 10 * (longer.length - levenshteinDistance longer shorter)

/-- Validation of the integer form of the threshold test against the
rational `calculateSimilarity`. -/
theorem fuzzyMatch_iff_similarity (text query : Str) :
    fuzzyMatch text query =
      (decide (¬ query.length < 3) && decide (7/10 ≤ calculateSimilarity text query)) := by
  unfold fuzzyMatch calculateSimilarity
  by_cases hq : query.length < 3
  · simp [hq]
  · simp only [hq, if_false, decide_not]
    set longer := if text.length > query.length then text else query with hlong
    set shorter := if text.length > query.length then query else text with hshort
    by_cases hL : longer.length = 0
    · simp [hL, hq]
      norm_num
    · have hLpos : 0 < longer.length := Nat.pos_of_ne_zero hL
      have hLQ : (0:ℚ) < (longer.length : ℚ) := by exact_mod_cast hLpos
      simp only [hL, if_false]
      simp only [decide_False, Bool.not_false, Bool.true_and]
      rcases le_or_lt (levenshteinDistance longer shorter) longer.length with hdl | hdl
      · have hcast : ((longer.length - levenshteinDistance longer shorter : Nat) : ℚ) =
            (longer.length : ℚ) - (levenshteinDistance longer shorter : ℚ) :=
          Nat.cast_sub hdl
        rw [decide_eq_decide, div_le_div_iff₀ (by norm_num) hLQ, ← hcast,
          mul_comm ((longer.length - levenshteinDistance longer shorter : Nat) : ℚ) 10]
        exact_mod_cast Iff.rfl
      · have h0 : longer.length - levenshteinDistance longer shorter = 0 :=
          Nat.sub_eq_zero_of_le (Nat.le_of_lt hdl)
        have hneg : (longer.length : ℚ) - (levenshteinDistance longer shorter : ℚ) < 0 := by
          have : (longer.length : ℚ) < (levenshteinDistance longer shorter : ℚ) := by
            exact_mod_cast hdl
          linarith
        have hrhs : ¬ (7/10 : ℚ) ≤ ((longer.length : ℚ) -
            (levenshteinDistance longer shorter : ℚ)) / (longer.length : ℚ) := by
          intro hc
          have := (div_nonneg_iff.mp (le_trans (by norm_num) hc))
          rcases this with ⟨h1, _⟩ | ⟨_, h2⟩
          · linarith
          · linarith
        rw [decide_eq_decide, h0]
        simp only [Nat.mul_zero]
        constructor
        · intro h
          exact absurd h (by omega)
        · intro h
          exact absurd h hrhs

/-- The `uiPatternMap` literal of `detectUIPatterns`. -/
def uiPatternMap : List (Str × List Str) :=
  [ (toL "button", [toL "button", toL "btn", toL "click", toL "action", toL "submit"]),
    (toL "card", [toL "card", toL "panel", toL "container", toL "box"]),
    (toL "modal", [toL "modal", toL "dialog", toL "popup", toL "overlay"]),
    (toL "form", [toL "form", toL "input", toL "field", toL "text", toL "submit"]),
    (toL "navigation", [toL "nav", toL "menu", toL "navbar", toL "link"]),
    (toL "alert", [toL "alert", toL "notification", toL "message", toL "toast"]),
    (toL "grid", [toL "grid", toL "layout", toL "columns", toL "rows"]),
    (toL "table", [toL "table", toL "data", toL "rows", toL "columns"]),
    (toL "tabs", [toL "tabs", toL "tab", toL "switch", toL "toggle"]),
    (toL "accordion", [toL "accordion", toL "collapse", toL "expand", toL "fold"]),
    (toL "dropdown", [toL "dropdown", toL "select", toL "menu", toL "options"]),
    (toL "tooltip", [toL "tooltip", toL "popover", toL "hover", toL "hint"]),
    (toL "badge", [toL "badge", toL "label", toL "tag", toL "chip"]),
    (toL "avatar", [toL "avatar", toL "profile", toL "user", toL "image"]),
    (toL "breadcrumb", [toL "breadcrumb", toL "path", toL "navigation"]),
    (toL "pagination", [toL "pagination", toL "pager", toL "pages", toL "next", toL "previous"]),
    (toL "progress", [toL "progress", toL "bar", toL "loading", toL "status"]),
    (toL "spinner", [toL "spinner", toL "loading", toL "wait", toL "busy"]),
    (toL "carousel", [toL "carousel", toL "slider", toL "gallery", toL "slideshow"]),
    (toL "chart", [toL "chart", toL "graph", toL "data", toL "visualization"]) ]

/-- `SearchEngine.detectUIPatterns`. -/
def detectUIPatterns (query : Str) : List Str :=
  let base := (uiPatternMap.filter
    (fun p => p.2.any (fun kw => containsSub query kw))).map Prod.fst
  let base := base ++
    (if containsSub query (toL "dark") || containsSub query (toL "theme") then
      [toL "themeable"] else [])
  let base := base ++
    (if containsSub query (toL "responsive") || containsSub query (toL "mobile") then
      [toL "responsive"] else [])
  base ++
    (if containsSub query (toL "icon") || containsSub query (toL "symbol") then
      [toL "icon"] else [])

/-- `SearchEngine.componentMatchesPattern`. -/
def componentMatchesPattern (c : MADEComponent) (pat : Str) : Bool :=
  let componentName := lowerStr c.name
  let componentTags := lowerStr (joinSpace c.tags)
  let componentClasses := lowerStr (joinSpace c.cssClasses)
  if pat = toL "button" then
    containsSub componentName (toL "button") || containsSub componentName (toL "btn") ||
      containsSub componentClasses (toL "btn")
  else if pat = toL "card" then
    containsSub componentName (toL "card") || containsSub componentTags (toL "card") ||
      containsSub componentClasses (toL "card")
  else if pat = toL "modal" then
    containsSub componentName (toL "modal") || containsSub componentName (toL "dialog") ||
      containsSub componentTags (toL "overlay")
  else if pat = toL "form" then
    containsSub componentName (toL "form") || containsSub componentName (toL "input") ||
      containsSub componentTags (toL "form")
  else if pat = toL "navigation" then
    containsSub componentName (toL "nav") || containsSub componentName (toL "menu") ||
      containsSub componentTags (toL "navigation")
  else if pat = toL "alert" then
    containsSub componentName (toL "alert") ||
      containsSub componentName (toL "notification") ||
      containsSub componentTags (toL "feedback")
  else if pat = toL "themeable" then
    (recordLookup c.variants (toL "theme")).isSome ||
      (recordLookup c.variants (toL "color")).isSome ||
      containsSub componentClasses (toL "dark") || containsSub componentClasses (toL "light")
  else if pat = toL "responsive" then
    containsSub componentClasses (toL "responsive") ||
      containsSub componentClasses (toL "sm") ||
      containsSub componentClasses (toL "md") ||
      containsSub componentClasses (toL "lg")
  else if pat = toL "icon" then
    containsSub componentName (toL "icon") || containsSub componentClasses (toL "icon")
  else
    containsSub componentName pat || containsSub componentTags pat

/-- `SearchEngine.htmlContainsPattern`. -/
def htmlContainsPattern (html query : Str) : Bool :=
  let lowerHtml := lowerStr html
  if containsSub query (toL "button") && containsSub lowerHtml (toL "<button") then true
  else if containsSub query (toL "form") &&
      (containsSub lowerHtml (toL "<form") || containsSub lowerHtml (toL "<input")) then true
  else if containsSub query (toL "link") && containsSub lowerHtml (toL "<a ") then true
  else if containsSub query (toL "image") && containsSub lowerHtml (toL "<img") then true
  else if containsSub query (toL "list") &&
      (containsSub lowerHtml (toL "<ul") || containsSub lowerHtml (toL "<ol")) then true
  else if containsSub query (toL "table") && containsSub lowerHtml (toL "<table") then true
  else false

/-- The searchable text of a component assembled by `findMatches`. -/
def searchableTextOfComponent (c : MADEComponent) : Str :=
  lowerStr (joinSpace ([c.name, c.description] ++ c.tags ++ c.cssClasses ++
    c.variants.map Prod.fst ++ (c.variants.map Prod.snd).flatten ++ c.a11yNotes.getD []))

/-- `SearchEngine.findMatches`. -/
def findMatches (c : MADEComponent) (terms : List Str) (query : Str) : List Str :=
  let searchableText := searchableTextOfComponent c
  (if containsSub searchableText query then [toL "exact_match"] else []) ++
  terms.filter (fun t => containsSub searchableText t) ++
  (if fuzzyMatch (lowerStr c.name) query then [toL "fuzzy_name"] else []) ++
  (detectUIPatterns query).filterMap
    (fun p => if componentMatchesPattern c p then some (toL "pattern_" ++ p) else none)

/-- `SearchEngine.findExampleMatches`. -/
def findExampleMatches (ex : ComponentExample) (terms : List Str) (query : Str) :
    List Str :=
  let searchableText := lowerStr (joinSpace [ex.title, ex.description.getD [], ex.html])
  (if containsSub searchableText query then [toL "exact_match"] else []) ++
  terms.filter (fun t => containsSub searchableText t) ++
  (if htmlContainsPattern ex.html query then [toL "html_pattern"] else [])

/-- The html of the primary example used for a component-level result
(`component.examples[0] || scaffold fallback`). -/
def primaryExampleHtml (c : MADEComponent) : Str :=
  match c.examples.head? with
  | some ex => ex.html
  | none => c.htmlScaffold

/-- The result object pushed by `searchComponents`. -/
def componentResult (c : MADEComponent) : SearchResult :=
  { component := c.name
    title := c.name ++ toL " Component"
    html := primaryExampleHtml c
    sourcePath := toL "components/" ++ lowerStr c.name
    upstreamRef := toL "main" }

/-- `SearchEngine.searchComponents`: one candidate per matching component,
in component order. -/
def searchComponentResults (comps : List MADEComponent) (terms : List Str)
    (query : Str) : List SearchResult :=
  comps.filterMap (fun c =>
    if 0 < (findMatches c terms query).length then some (componentResult c) else none)

/-- The result object pushed by `searchExamples`. -/
def exampleResult (c : MADEComponent) (ex : ComponentExample) : SearchResult :=
  { component := c.name
    title := c.name ++ toL ": " ++ ex.title
    html := ex.html
    sourcePath := toL "components/" ++ lowerStr c.name ++ toL "/examples"
    upstreamRef := toL "main" }

/-- `SearchEngine.searchExamples`: one candidate per matching example. -/
def searchExampleResults (comps : List MADEComponent) (terms : List Str)
    (query : Str) : List SearchResult :=
  comps.flatMap (fun c => c.examples.filterMap (fun ex =>
    if 0 < (findExampleMatches ex terms query).length then some (exampleResult c ex)
    else none))

/-- `SearchEngine.calculateRelevance` (lines 345-380), with the score
accumulated exactly as the source does: a start-of-title bonus, +5 per term
in the title, +2 per term in the markup, +3 for a scaffold-style title
(contains `Component`, no colon), and +1 for markup of nonzero length under
1000. -/
def calculateRelevance (r : SearchResult) (terms : List Str) : Nat :=
  let lowerTitle := lowerStr r.title
  let lowerHtml := lowerStr r.html
  let score := 0
  let score := if terms.any (fun t => containsSub lowerTitle t && startsWithL lowerTitle t)
    then score + 10 else score
  let score := terms.foldl (fun s t => if containsSub lowerTitle t then s + 5 else s) score
  let score := terms.foldl (fun s t => if containsSub lowerHtml t then s + 2 else s) score
  let score := if containsSub r.title (toL "Component") && !containsSub r.title (toL ":")
    then score + 3 else score
  let score := if 0 < r.html.length ∧ r.html.length < 1000 then score + 1 else score
  score

/-- The candidate list in insertion order: component results first, then
example results, as assembled by `search` before sorting. -/
def searchCandidates (comps : List MADEComponent) (query : Str) : List SearchResult :=
  let lowerQuery := lowerStr query
  let terms := extractSearchTerms lowerQuery
  searchComponentResults comps terms lowerQuery ++
    searchExampleResults comps terms lowerQuery

/-- Comparator embedding of the JS stable sort
`results.sort((a, b) => relevance(b) - relevance(a))`: ECMAScript sorts
stably, which is extensionally a sort by descending relevance breaking ties
by insertion index. -/
def rankLE (terms : List Str) (a b : Nat × SearchResult) : Bool :=
  let sa := calculateRelevance a.2 terms
  let sb := calculateRelevance b.2 terms
  if sa = sb then a.1 ≤ b.1 else sb < sa

/-- The ranked candidate list (still carrying insertion indices), produced
by a stable sort under `rankLE` — `insertionSort` is stable, matching the
ECMAScript guarantee for `Array.prototype.sort`. -/
def searchRanked (comps : List MADEComponent) (query : Str) :
    List (Nat × SearchResult) :=
  let terms := extractSearchTerms (lowerStr query)
  List.insertionSort (fun a b => rankLE terms a b = true)
    ((searchCandidates comps query).enum)

/-- `SearchEngine.search`: candidates, stable sort by descending relevance,
truncated to the top 50. -/
def searchFn (comps : List MADEComponent) (query : Str) : List SearchResult :=
  ((searchRanked comps query).map Prod.snd).take 50

/-- The per-candidate score as claimed by the specification, written from
the claim text for comparison with `calculateRelevance` — in particular its
conciseness bonus reads "+1 if the markup length is under 1000 characters"
with no lower bound. -/
def claimScoreC4 (r : SearchResult) (terms : List Str) : Nat :=
  (if terms.any (fun t => containsSub (lowerStr r.title) t &&
      startsWithL (lowerStr r.title) t) then 10 else 0) +
  5 * terms.countP (fun t => containsSub (lowerStr r.title) t) +
  2 * terms.countP (fun t => containsSub (lowerStr r.html) t) +
  (if containsSub r.title (toL "Component") && !containsSub r.title (toL ":") then 3 else 0) +
  (if r.html.length < 1000 then 1 else 0)

/-- `SearchEngine.calculateComponentSimilarity` (lines 501-520): tag and
class overlap are each normalized by `Math.max(len1, len2, 1)`, the
variant-axis overlap by `Math.max(unionSize, 1)`; weights 0.4 / 0.3 / 0.3.
JS float arithmetic is modelled as exact rational arithmetic. -/
def calculateComponentSimilarity (c1 c2 : MADEComponent) : ℚ :=
  let commonTags := c1.tags.filter (fun t => c2.tags.contains t)
  let s1 : ℚ := (commonTags.length : ℚ) /
    ((max c1.tags.length (max c2.tags.length 1) : Nat) : ℚ) * (4/10)
  let commonClasses := c1.cssClasses.filter (fun cls => c2.cssClasses.contains cls)
  let s2 : ℚ := (commonClasses.length : ℚ) /
    ((max c1.cssClasses.length (max c2.cssClasses.length 1) : Nat) : ℚ) * (3/10)
  let keys1 := c1.variants.map Prod.fst
  let keys2 := c2.variants.map Prod.fst
  let commonVariants := keys1.filter (fun k => keys2.contains k)
  let totalVariants := (uniqueFirst (keys1 ++ keys2)).length
  let s3 : ℚ := (commonVariants.length : ℚ) / ((max totalVariants 1 : Nat) : ℚ) * (3/10)
  s1 + s2 + s3

/-- The similarity formula as the claim states it, written from the claim
text for comparison with `calculateComponentSimilarity`: every overlap term
is intersection size over union size, a union of size 0 being treated
as 1. -/
def claimSimilarityC8 (c1 c2 : MADEComponent) : ℚ :=
  let interTags := c1.tags.filter (fun t => c2.tags.contains t)
  let unionTags := (uniqueFirst (c1.tags ++ c2.tags)).length
  let t1 : ℚ := ((4:ℚ)/10) * ((interTags.length : ℚ) / ((max unionTags 1 : Nat) : ℚ))
  let interClasses := c1.cssClasses.filter (fun cls => c2.cssClasses.contains cls)
  let unionClasses := (uniqueFirst (c1.cssClasses ++ c2.cssClasses)).length
  let t2 : ℚ := ((3:ℚ)/10) * ((interClasses.length : ℚ) / ((max unionClasses 1 : Nat) : ℚ))
  let keys1 := c1.variants.map Prod.fst
  let keys2 := c2.variants.map Prod.fst
  let interKeys := keys1.filter (fun k => keys2.contains k)
  let unionKeys := (uniqueFirst (keys1 ++ keys2)).length
  let t3 : ℚ := ((3:ℚ)/10) * ((interKeys.length : ℚ) / ((max unionKeys 1 : Nat) : ℚ))
  t1 + t2 + t3

end SearchEngine

/-! ### Shared lemmas -/

theorem containsSub_iff_substring (hay needle : Str) :
    containsSub hay needle = true ↔ needle <:+: hay := by
  induction hay with
  | nil => simp [containsSub, List.isEmpty_iff, List.infix_nil]
  | cons c t ih =>
    simp only [containsSub, Bool.or_eq_true, List.isPrefixOf_iff_prefix, ih,
      List.infix_cons_iff]

theorem foldl_add_if {α : Type} (p : α → Bool) (k : Nat) (l : List α) (init : Nat) :
    l.foldl (fun s t => if p t then s + k else s) init = init + k * l.countP p := by
  induction l generalizing init with
  | nil => simp
  | cons a t ih =>
    simp only [List.foldl_cons, List.countP_cons]
    by_cases h : p a
    · simp [h, ih]
      ring
    · simp [h, ih]

theorem mem_uniqueFirstAux {α : Type} [DecidableEq α] (seen l : List α) (x : α) :
    x ∈ uniqueFirstAux seen l ↔ x ∈ l ∧ x ∉ seen := by
  induction l generalizing seen with
  | nil => simp [uniqueFirstAux]
  | cons a t ih =>
    by_cases h : a ∈ seen
    · rw [uniqueFirstAux, if_pos h, ih]
      constructor
      · rintro ⟨hx, hs⟩
        exact ⟨List.mem_cons_of_mem a hx, hs⟩
      · rintro ⟨hx, hs⟩
        rcases List.mem_cons.mp hx with rfl | hx2
        · exact absurd h hs
        · exact ⟨hx2, hs⟩
    · rw [uniqueFirstAux, if_neg h]
      simp only [List.mem_cons, ih, List.mem_cons]
      constructor
      · rintro (rfl | ⟨hx, hs⟩)
        · exact ⟨Or.inl rfl, h⟩
        · refine ⟨Or.inr hx, ?_⟩
          intro hxs
          exact hs (Or.inr hxs)
      · rintro ⟨rfl | hx, hs⟩
        · exact Or.inl rfl
        · by_cases hxa : x = a
          · exact Or.inl hxa
          · refine Or.inr ⟨hx, ?_⟩
            intro hmem
            rcases hmem with h1 | h2
            · exact hxa h1
            · exact hs h2

theorem nodup_uniqueFirstAux {α : Type} [DecidableEq α] (seen l : List α) :
    (uniqueFirstAux seen l).Nodup := by
  induction l generalizing seen with
  | nil => simp [uniqueFirstAux]
  | cons a t ih =>
    by_cases h : a ∈ seen
    · simpa [uniqueFirstAux, if_pos h] using ih seen
    · simp only [uniqueFirstAux, if_neg h, List.nodup_cons]
      refine ⟨?_, ih (a :: seen)⟩
      rw [mem_uniqueFirstAux]
      rintro ⟨-, hs⟩
      exact hs (List.mem_cons_self a seen)

theorem nodup_uniqueFirst {α : Type} [DecidableEq α] (l : List α) :
    (uniqueFirst l).Nodup := nodup_uniqueFirstAux [] l

theorem mem_uniqueFirst {α : Type} [DecidableEq α] (l : List α) (x : α) :
    x ∈ uniqueFirst l ↔ x ∈ l := by
  simp [uniqueFirst, mem_uniqueFirstAux]

theorem toFinset_uniqueFirst {α : Type} [DecidableEq α] (l : List α) :
    (uniqueFirst l).toFinset = l.toFinset := by
  ext x
  simp [mem_uniqueFirst]

/-- The length of the order-preserving deduplication is the number of
distinct elements. -/
theorem length_uniqueFirst_eq_card {α : Type} [DecidableEq α] (l : List α) :
    (uniqueFirst l).length = l.toFinset.card := by
  rw [← toFinset_uniqueFirst, List.toFinset_card_of_nodup (nodup_uniqueFirst l)]

/-! ### Claim C5 -/

/-- Claim C5 (confirmed): parsing a stylesheet that declares
`--made-color-primary-500: #FF5F00;` under a `:root` selector yields the
token named `--made-color-primary-500` with value `#FF5F00` and category
`color`; and the category rule chain puts the colour rule first, so any
name containing `color` — in particular one also containing `spacing` — is
classified as `color`. -/
theorem C5_color_token_parse_and_priority :
    CSSParser.extractCSSVariables []
      ⟨[CSSParser.CssNode.rule [toL ":root"]
        [⟨toL "--made-color-primary-500", toL "#FF5F00"⟩]]⟩ =
      [⟨toL "--made-color-primary-500", toL "#FF5F00", TokenCategory.color,
        some (toL "color primary 500 color token (#FF5F00)")⟩] ∧
    ∀ name : Str, containsSub (lowerStr name) (toL "color") = true →
      containsSub (lowerStr name) (toL "spacing") = true →
      CSSParser.categorizeToken name = TokenCategory.color := by
  refine ⟨by decide, ?_⟩
  intro name h1 _h2
  unfold CSSParser.categorizeToken
  simp [h1]

/-- Witness for C5: the rule-priority part applied at the concrete name
`--made-text-color-spacing-4`, which contains both `color` and `spacing`. -/
theorem C5_witness :
    CSSParser.categorizeToken (toL "--made-text-color-spacing-4") = TokenCategory.color :=
  C5_color_token_parse_and_priority.2 (toL "--made-text-color-spacing-4")
    (by decide) (by decide)

/-! ### Claim C2 -/

/-- Claim C2 (corrected): `parseMadeCSSVariables` swallows a parse failure —
returning the token state unchanged — exactly when the error message
contains `property missing`; every other failure, including other parse
errors, is re-thrown to the immediate caller, as is a file-read error. -/
theorem C2_parse_failure_handling :
    ∀ (current : List MADEToken) (msg : Str),
      (containsSub msg (toL "property missing") = true →
        CSSParser.parseMadeCSSVariablesOutcome current (Except.error msg) =
          Except.ok current) ∧
      (containsSub msg (toL "property missing") = false →
        CSSParser.parseMadeCSSVariablesOutcome current (Except.error msg) =
          Except.error msg) := by
  intro current msg
  constructor
  · intro h
    simp [CSSParser.parseMadeCSSVariablesOutcome, h]
  · intro h
    simp [CSSParser.parseMadeCSSVariablesOutcome, h]

/-- Witness for C2: a `property missing ':'` failure is swallowed with the
token state unchanged, while a missing-file error is re-thrown. -/
theorem C2_parse_failure_handling_witness :
    CSSParser.parseMadeCSSVariablesOutcome [] (Except.error (toL "property missing \x27:\x27")) =
      Except.ok [] ∧
    CSSParser.parseMadeCSSVariablesOutcome []
      (Except.error (toL "ENOENT: no such file or directory")) =
      Except.error (toL "ENOENT: no such file or directory") :=
  ⟨(C2_parse_failure_handling [] (toL "property missing \x27:\x27")).1 (by decide),
   (C2_parse_failure_handling [] (toL "ENOENT: no such file or directory")).2 (by decide)⟩

/-- Counterexample for C2 as stated: a stylesheet whose parse fails with
the css-tools message `missing '`+closing-brace+`'` (an unclosed block, not
a `property missing` error) makes a direct `parseMadeCSSVariables` call
raise rather than return normally. -/
theorem C2_counterexample :
    CSSParser.parseMadeCSSVariablesOutcome []
      (Except.error (toL "missing \x27\x7d\x27")) =
      Except.error (toL "missing \x27\x7d\x27") := rfl

/-! ### Claim C9 -/

/-- Claim C9 (corrected): during `buildIndexes`, the dataset states
readable at the suspension points are never a partial mix of old and new
elements — each collection is either the cleared empty list or the complete
new list, and the meta is either the old meta or the complete new record —
and the final observable state is the complete new dataset.  However, the
cleared intermediate states are observable (see the counterexample), so a
reader does not always see the old dataset or the new one. -/
theorem C9_build_observable_states :
    ∀ (init : IndexManager.ManagerData) (newTokens : List MADEToken)
      (newComps : List MADEComponent) (newMeta : IndexMeta),
      (∀ s ∈ IndexManager.buildObservableStates init newTokens newComps newMeta,
        (s.tokens = [] ∨ s.tokens = newTokens) ∧
        (s.components = [] ∨ s.components = newComps) ∧
        (s.meta = init.meta ∨ s.meta = some newMeta)) ∧
      (IndexManager.buildObservableStates init newTokens newComps newMeta).getLast? =
        some ⟨newTokens, newComps, some newMeta⟩ := by
  intro init newTokens newComps newMeta
  constructor
  · intro s hs
    simp only [IndexManager.buildObservableStates, List.mem_cons,
      List.mem_singleton] at hs
    rcases hs with rfl | rfl | rfl | h
    · exact ⟨Or.inl rfl, Or.inl rfl, Or.inl rfl⟩
    · exact ⟨Or.inr rfl, Or.inl rfl, Or.inl rfl⟩
    · exact ⟨Or.inr rfl, Or.inr rfl, Or.inr rfl⟩
    · cases h
  · rfl

/-- Witness for C9: the characterization applied to a concrete build over a
previously loaded dataset. -/
theorem C9_build_observable_states_witness :
    (IndexManager.buildObservableStates
        ⟨[⟨toL "--made-old", toL "1px", TokenCategory.other, none⟩], [], none⟩
        [⟨toL "--made-new", toL "2px", TokenCategory.other, none⟩] [] default).getLast? =
      some ⟨[⟨toL "--made-new", toL "2px", TokenCategory.other, none⟩], [], some default⟩ ∧
    ((⟨[], [], none⟩ : IndexManager.ManagerData).tokens = [] ∨
      (⟨[], [], none⟩ : IndexManager.ManagerData).tokens =
        [⟨toL "--made-new", toL "2px", TokenCategory.other, none⟩]) :=
  ⟨(C9_build_observable_states
      ⟨[⟨toL "--made-old", toL "1px", TokenCategory.other, none⟩], [], none⟩
      [⟨toL "--made-new", toL "2px", TokenCategory.other, none⟩] [] default).2,
   ((C9_build_observable_states
      ⟨[⟨toL "--made-old", toL "1px", TokenCategory.other, none⟩], [], none⟩
      [⟨toL "--made-new", toL "2px", TokenCategory.other, none⟩] [] default).1
      ⟨[], [], none⟩ (by decide)).1⟩

/-- Counterexample for C9 as stated: with a nonempty previously loaded
dataset and a nonempty build result, the first observable state of the
build (both collections cleared, lines 41-42 of `buildIndexes`, visible at
every suspension of `parseCSSFiles`) is neither the complete previous
dataset nor the complete new dataset. -/
theorem C9_counterexample :
    (IndexManager.buildObservableStates
        ⟨[⟨toL "--made-old", toL "1px", TokenCategory.other, none⟩],
         [{ (default : MADEComponent) with name := toL "Button" }], none⟩
        [⟨toL "--made-new", toL "2px", TokenCategory.other, none⟩]
        [{ (default : MADEComponent) with name := toL "Card" }] default).head? =
      some ⟨[], [], none⟩ ∧
    (⟨[], [], none⟩ : IndexManager.ManagerData) ≠
      ⟨[⟨toL "--made-old", toL "1px", TokenCategory.other, none⟩],
       [{ (default : MADEComponent) with name := toL "Button" }], none⟩ ∧
    (⟨[], [], none⟩ : IndexManager.ManagerData) ≠
      ⟨[⟨toL "--made-new", toL "2px", TokenCategory.other, none⟩],
       [{ (default : MADEComponent) with name := toL "Card" }], some default⟩ := by
  refine ⟨rfl, by decide, by decide⟩

/-! ### Claim C10 -/

/-- Claim C10 (confirmed): every component produced by the story parser has
a nonempty examples list — a file for which a name was derived but no
example markup was extracted contributes no component at all. -/
theorem C10_components_have_examples :
    ∀ (files : List (Option StorybookParser.StoryFileExtraction))
      (c : MADEComponent),
      c ∈ StorybookParser.getComponents (StorybookParser.parseStories files) →
      c.examples ≠ [] := by
  have step : ∀ (comps : List MADEComponent)
      (o : Option StorybookParser.StoryFileExtraction) (c : MADEComponent),
      c ∈ StorybookParser.parseStoryFileStep comps o → c ∈ comps ∨ c.examples ≠ [] := by
    intro comps o c hc
    cases o with
    | none => exact Or.inl hc
    | some e =>
      simp only [StorybookParser.parseStoryFileStep] at hc
      by_cases h : e.componentName ≠ [] ∧ e.examples ≠ []
      · rw [if_pos h] at hc
        rcases List.mem_append.mp hc with hin | hone
        · exact Or.inl hin
        · rcases List.mem_singleton.mp hone with rfl
          exact Or.inr h.2
      · rw [if_neg h] at hc
        exact Or.inl hc
  have aux : ∀ (files : List (Option StorybookParser.StoryFileExtraction))
      (acc : List MADEComponent),
      (∀ c ∈ acc, c.examples ≠ []) →
      ∀ c ∈ files.foldl StorybookParser.parseStoryFileStep acc, c.examples ≠ [] := by
    intro files
    induction files with
    | nil => intro acc hacc c hc; exact hacc c hc
    | cons f rest ih =>
      intro acc hacc c hc
      refine ih (StorybookParser.parseStoryFileStep acc f) ?_ c hc
      intro c2 hc2
      rcases step acc f c2 hc2 with hin | hne
      · exact hacc c2 hin
      · exact hne
  intro files c hc
  exact aux files [] (by intro c2 hc2; cases hc2) c hc

/-- Witness for C10: the invariant applied to a concrete parse of one story
file that yields a Button component with one example. -/
theorem C10_components_have_examples_witness :
    (StorybookParser.storyComponentOfExtraction
        ⟨toL "Button", toL "A button", [], [], [], [], toL "<button></button>", [], [],
         [⟨toL "Primary", toL "<button>Go</button>", none, []⟩]⟩).examples ≠ [] :=
  C10_components_have_examples
    [some ⟨toL "Button", toL "A button", [], [], [], [], toL "<button></button>", [], [],
      [⟨toL "Primary", toL "<button>Go</button>", none, []⟩]⟩]
    (StorybookParser.storyComponentOfExtraction
        ⟨toL "Button", toL "A button", [], [], [], [], toL "<button></button>", [], [],
         [⟨toL "Primary", toL "<button>Go</button>", none, []⟩]⟩)
    (by decide)

/-! ### Claim C3 -/

/-- Claim C3 (confirmed): `getComponent` resolves names case-insensitively —
whenever a case-insensitive match exists, requests whose lowercased forms
agree receive the identical response, built from a matching component; and
a request with no case-insensitive match raises an error whose message
contains the literal requested name. -/
theorem C3_getComponent_case_insensitive :
    ∀ (comps : List MADEComponent) (n1 n2 : Str),
      (lowerStr n1 = lowerStr n2 → (∃ c ∈ comps, lowerStr c.name = lowerStr n1) →
        MCPServer.getComponent comps n1 = MCPServer.getComponent comps n2) ∧
      ((∃ c ∈ comps, lowerStr c.name = lowerStr n1) →
        ∃ c, c ∈ comps ∧ lowerStr c.name = lowerStr n1 ∧
          MCPServer.getComponent comps n1 =
            Except.ok (MCPServer.responseOfComponent c)) ∧
      ((∀ c ∈ comps, lowerStr c.name ≠ lowerStr n1) →
        ∃ msg, MCPServer.getComponent comps n1 = Except.error msg ∧
          containsSub msg n1 = true) := by
  intro comps n1 n2
  refine ⟨?_, ?_, ?_⟩
  · intro h hex
    unfold MCPServer.getComponent
    rw [h]
    have hsome : (comps.find? (fun c => lowerStr c.name == lowerStr n2)).isSome := by
      rw [List.find?_isSome]
      obtain ⟨c0, hc0, hl0⟩ := hex
      exact ⟨c0, hc0, by simp [hl0, ← h]⟩
    obtain ⟨c, hc⟩ := Option.isSome_iff_exists.mp hsome
    rw [hc]
  · rintro ⟨c0, hc0, hl0⟩
    have hsome : (comps.find? (fun c => lowerStr c.name == lowerStr n1)).isSome := by
      rw [List.find?_isSome]
      exact ⟨c0, hc0, by simp [hl0]⟩
    obtain ⟨c, hc⟩ := Option.isSome_iff_exists.mp hsome
    refine ⟨c, List.mem_of_find?_eq_some hc, ?_, ?_⟩
    · have hp := List.find?_some hc
      simpa using hp
    · unfold MCPServer.getComponent
      rw [hc]
  · intro hall
    have hnone : comps.find? (fun c => lowerStr c.name == lowerStr n1) = none := by
      rw [List.find?_eq_none]
      intro c hcmem
      simp [hall c hcmem]
    refine ⟨toL "Component \x27" ++ n1 ++ toL "\x27 not found", ?_, ?_⟩
    · unfold MCPServer.getComponent
      rw [hnone]
    · rw [containsSub_iff_substring]
      exact ⟨toL "Component \x27", toL "\x27 not found", rfl⟩

/-- Witness for C3 on a dataset containing a component named `Button`: the
requests `button`, `Button` and `BUTTON` receive identical responses, the
lookup succeeds, and `DoesNotExist` raises with the requested name in the
message. -/
theorem C3_getComponent_case_insensitive_witness :
    (MCPServer.getComponent [{ (default : MADEComponent) with name := toL "Button" }]
        (toL "button") =
      MCPServer.getComponent [{ (default : MADEComponent) with name := toL "Button" }]
        (toL "BUTTON")) ∧
    (∃ c, c ∈ [{ (default : MADEComponent) with name := toL "Button" }] ∧
      lowerStr c.name = lowerStr (toL "button") ∧
      MCPServer.getComponent [{ (default : MADEComponent) with name := toL "Button" }]
          (toL "button") = Except.ok (MCPServer.responseOfComponent c)) ∧
    (∃ msg, MCPServer.getComponent
        [{ (default : MADEComponent) with name := toL "Button" }] (toL "DoesNotExist") =
        Except.error msg ∧ containsSub msg (toL "DoesNotExist") = true) :=
  ⟨(C3_getComponent_case_insensitive
      [{ (default : MADEComponent) with name := toL "Button" }]
      (toL "button") (toL "BUTTON")).1 (by decide)
      ⟨{ (default : MADEComponent) with name := toL "Button" }, by decide, by decide⟩,
   (C3_getComponent_case_insensitive
      [{ (default : MADEComponent) with name := toL "Button" }]
      (toL "button") (toL "button")).2.1
      ⟨{ (default : MADEComponent) with name := toL "Button" }, by decide, by decide⟩,
   (C3_getComponent_case_insensitive
      [{ (default : MADEComponent) with name := toL "Button" }]
      (toL "DoesNotExist") (toL "DoesNotExist")).2.2 (by decide)⟩

/-! ### Claim C6 -/

theorem snd_mem_recordAssign {α : Type} (rec : List (Str × α)) (k : Str) (v : α)
    (p : Str × α) (hp : p ∈ recordAssign rec k v) : p ∈ rec ∨ p.2 = v := by
  induction rec with
  | nil =>
    simp only [recordAssign, List.mem_singleton] at hp
    subst hp
    exact Or.inr rfl
  | cons q rest ih =>
    obtain ⟨k0, v0⟩ := q
    simp only [recordAssign] at hp
    by_cases h : k0 = k
    · rw [if_pos h] at hp
      rcases List.mem_cons.mp hp with rfl | hin
      · exact Or.inr rfl
      · exact Or.inl (List.mem_cons_of_mem _ hin)
    · rw [if_neg h] at hp
      rcases List.mem_cons.mp hp with rfl | hin
      · exact Or.inl (List.mem_cons_self (k0, v0) rest)
      · rcases ih hin with h1 | h2
        · exact Or.inl (List.mem_cons_of_mem _ h1)
        · exact Or.inr h2

theorem snd_mem_foldl_recordAssign {α : Type} (dcl : List (Str × α))
    (init : List (Str × α)) (p : Str × α)
    (hp : p ∈ dcl.foldl (fun acc q => recordAssign acc q.1 q.2) init) :
    p ∈ init ∨ p.2 ∈ dcl.map Prod.snd := by
  induction dcl generalizing init with
  | nil => exact Or.inl hp
  | cons q rest ih =>
    simp only [List.foldl_cons] at hp
    rcases ih (recordAssign init q.1 q.2) hp with h1 | h2
    · rcases snd_mem_recordAssign init q.1 q.2 p h1 with ha | hb
      · exact Or.inl ha
      · refine Or.inr ?_
        rw [List.map_cons, hb]
        exact List.mem_cons_self q.2 (rest.map Prod.snd)
    · refine Or.inr ?_
      rw [List.map_cons]
      exact List.mem_cons_of_mem q.2 h2

theorem snd_mem_foldl_condAssign (entries : List (Str × List Str))
    (init : List (Str × List Str)) (p : Str × List Str)
    (hp : p ∈ entries.foldl
      (fun acc q => if 1 < q.2.length then recordAssign acc q.1 q.2 else acc) init) :
    p ∈ init ∨ ∃ q ∈ entries, p.2 = q.2 ∧ 1 < q.2.length := by
  induction entries generalizing init with
  | nil => exact Or.inl hp
  | cons q rest ih =>
    simp only [List.foldl_cons] at hp
    by_cases h : 1 < q.2.length
    · rw [if_pos h] at hp
      rcases ih (recordAssign init q.1 q.2) hp with h1 | h2
      · rcases snd_mem_recordAssign init q.1 q.2 p h1 with ha | hb
        · exact Or.inl ha
        · exact Or.inr ⟨q, List.mem_cons_self _ _, hb, h⟩
      · obtain ⟨q2, hq2, hpq2⟩ := h2
        exact Or.inr ⟨q2, List.mem_cons_of_mem _ hq2, hpq2⟩
    · rw [if_neg h] at hp
      rcases ih init hp with h1 | h2
      · exact Or.inl h1
      · obtain ⟨q2, hq2, hpq2⟩ := h2
        exact Or.inr ⟨q2, List.mem_cons_of_mem _ hq2, hpq2⟩

theorem addArgValue_nodup (acc : List (Str × List Str)) (k v : Str)
    (hacc : ∀ p ∈ acc, p.2.Nodup) :
    ∀ p ∈ StorybookParser.addArgValue acc k v, p.2.Nodup := by
  induction acc with
  | nil =>
    intro p hp
    simp only [StorybookParser.addArgValue, List.mem_singleton] at hp
    subst hp
    simp
  | cons q rest ih =>
    obtain ⟨k0, vs⟩ := q
    intro p hp
    simp only [StorybookParser.addArgValue] at hp
    by_cases h : k0 = k
    · rw [if_pos h] at hp
      rcases List.mem_cons.mp hp with rfl | hin
      · by_cases hv : v ∈ vs
        · simpa [hv] using hacc (k0, vs) (List.mem_cons_self _ _)
        · have hnd : vs.Nodup := hacc (k0, vs) (List.mem_cons_self _ _)
          simp only [if_neg hv]
          simp [List.nodup_append, hnd, hv]
      · exact hacc p (List.mem_cons_of_mem _ hin)
    · rw [if_neg h] at hp
      rcases List.mem_cons.mp hp with rfl | hin
      · exact hacc (k0, vs) (List.mem_cons_self _ _)
      · exact ih (fun p2 hp2 => hacc p2 (List.mem_cons_of_mem _ hp2)) p hin

theorem collectArgValues_nodup (occurrences : List (Str × Str)) :
    ∀ p ∈ StorybookParser.collectArgValues occurrences, p.2.Nodup := by
  have aux : ∀ (occ : List (Str × Str)) (acc : List (Str × List Str)),
      (∀ p ∈ acc, p.2.Nodup) →
      ∀ p ∈ occ.foldl (fun a q => StorybookParser.addArgValue a q.1 q.2) acc,
        p.2.Nodup := by
    intro occ
    induction occ with
    | nil => intro acc hacc p hp; exact hacc p hp
    | cons q rest ih =>
      intro acc hacc p hp
      simp only [List.foldl_cons] at hp
      exact ih (StorybookParser.addArgValue acc q.1 q.2)
        (addArgValue_nodup acc q.1 q.2 hacc) p hp
  intro p hp
  exact aux occurrences [] (by intro p2 hp2; cases hp2) p hp

/-- Claim C6 (corrected): an axis assembled from observed story args always
holds at least two distinct values, but an axis declared through `argTypes`
control options is included verbatim — so every variants axis either equals
one of the declared option lists (which may be single-valued) or is a
duplicate-free list of at least two observed values. -/
theorem C6_variant_axis_values :
    ∀ (declaredControls : List (Str × List Str)) (occurrences : List (Str × Str))
      (k : Str) (vs : List Str),
      (k, vs) ∈ StorybookParser.extractVariants declaredControls occurrences →
      vs ∈ declaredControls.map Prod.snd ∨ (vs.Nodup ∧ 2 ≤ vs.length) := by
  intro dc occ k vs hmem
  unfold StorybookParser.extractVariants at hmem
  rcases snd_mem_foldl_condAssign _ _ _ hmem with h1 | h2
  · rcases snd_mem_foldl_recordAssign dc [] (k, vs) h1 with ha | hb
    · cases ha
    · exact Or.inl hb
  · obtain ⟨q, hq, hvq, hlen⟩ := h2
    have hvq2 : vs = q.2 := hvq
    refine Or.inr ⟨?_, ?_⟩
    · rw [hvq2]
      exact collectArgValues_nodup occ q hq
    · rw [hvq2]
      omega

/-- Witness for C6: a component with the declared single-option axis
`variant: [primary]` and two observed `size` values; the `size` axis is
duplicate-free with two values, the `variant` axis is a declared option
list. -/
theorem C6_variant_axis_values_witness :
    ((toL "size", [toL "sm", toL "lg"]) ∈
      StorybookParser.extractVariants [(toL "variant", [toL "primary"])]
        [(toL "size", toL "sm"), (toL "size", toL "lg")] ∧
      ([toL "sm", toL "lg"] ∈ [[toL "primary"]] ∨
        ([toL "sm", toL "lg"] : List Str).Nodup ∧ 2 ≤ ([toL "sm", toL "lg"] : List Str).length)) ∧
    ([toL "primary"] ∈ [[toL "primary"]] ∨
      ([toL "primary"] : List Str).Nodup ∧ 2 ≤ ([toL "primary"] : List Str).length) :=
  ⟨⟨by decide,
    C6_variant_axis_values [(toL "variant", [toL "primary"])]
      [(toL "size", toL "sm"), (toL "size", toL "lg")] (toL "size")
      [toL "sm", toL "lg"] (by decide)⟩,
   C6_variant_axis_values [(toL "variant", [toL "primary"])]
      [(toL "size", toL "sm"), (toL "size", toL "lg")] (toL "variant")
      [toL "primary"] (by decide)⟩

/-- Counterexample for C6 as stated: a story file declaring the single
option `primary` for the `variant` control produces the single-valued axis
`variant: [primary]` in the component's variants record. -/
theorem C6_counterexample :
    StorybookParser.extractVariants [(toL "variant", [toL "primary"])] [] =
      [(toL "variant", [toL "primary"])] ∧
    (uniqueFirst [toL "primary"]).length = 1 := by
  refine ⟨rfl, rfl⟩

/-! ### Claim C7 -/

theorem applyProp_ariaLabel (el : ComponentScaffolder.ScaffoldElement)
    (notes : List Str) (v : PropValue) :
    ComponentScaffolder.applyProp el notes (toL "ariaLabel") v =
      (ComponentScaffolder.setAttr el (toL "aria-label")
        (ComponentScaffolder.propValueToAttr v), notes) := rfl

theorem applyProp_role (el : ComponentScaffolder.ScaffoldElement)
    (notes : List Str) (v : PropValue) :
    ComponentScaffolder.applyProp el notes (toL "role") v =
      (ComponentScaffolder.setAttr el (toL "role")
        (ComponentScaffolder.propValueToAttr v), notes) := rfl

theorem applyProp_href (el : ComponentScaffolder.ScaffoldElement)
    (notes : List Str) (v : PropValue) :
    ComponentScaffolder.applyProp el notes (toL "href") v =
      (if el.tag = toL "a" then
        (ComponentScaffolder.setAttr el (toL "href")
          (ComponentScaffolder.propValueToAttr v), notes)
       else (el, notes)) := rfl

theorem applyProp_type (el : ComponentScaffolder.ScaffoldElement)
    (notes : List Str) (v : PropValue) :
    ComponentScaffolder.applyProp el notes (toL "type") v =
      (if el.tag ∈ [toL "button", toL "input"] then
        (ComponentScaffolder.setAttr el (toL "type")
          (ComponentScaffolder.propValueToAttr v), notes)
       else (el, notes)) := rfl

/-- Claim C7 (corrected): the dispatch allow-list of `applyProps` comprises
only text, children, id, className, class, href, type, disabled,
placeholder and value; `ariaLabel` and `role` reach `applyProp` (and set
`aria-label` / `role`) only when the component declares them in its `props`
record — otherwise such an entry produces an unknown-prop warning and
leaves the element untouched.  The element-type guards hold as stated:
`href` is applied only on anchors and `type` only on form controls. -/
theorem C7_intrinsic_attribute_dispatch :
    ∀ (comp : MADEComponent) (el : ComponentScaffolder.ScaffoldElement)
      (k : Str) (v : PropValue),
      (ComponentScaffolder.variantHit comp k v = false →
        ComponentScaffolder.intrinsicPropNames.contains k = false →
        ComponentScaffolder.declaredProp comp k = false →
        ComponentScaffolder.applyProps comp [(k, v)] el =
          (el, [ComponentScaffolder.unknownPropNote k comp.name])) ∧
      (ComponentScaffolder.variantHit comp (toL "ariaLabel") v = false →
        ComponentScaffolder.declaredProp comp (toL "ariaLabel") = true →
        ComponentScaffolder.applyProps comp [(toL "ariaLabel", v)] el =
          (ComponentScaffolder.setAttr el (toL "aria-label")
            (ComponentScaffolder.propValueToAttr v), [])) ∧
      (ComponentScaffolder.variantHit comp (toL "role") v = false →
        ComponentScaffolder.declaredProp comp (toL "role") = true →
        ComponentScaffolder.applyProps comp [(toL "role", v)] el =
          (ComponentScaffolder.setAttr el (toL "role")
            (ComponentScaffolder.propValueToAttr v), [])) ∧
      (ComponentScaffolder.variantHit comp (toL "href") v = false →
        ComponentScaffolder.applyProps comp [(toL "href", v)] el =
          (if el.tag = toL "a" then
            (ComponentScaffolder.setAttr el (toL "href")
              (ComponentScaffolder.propValueToAttr v), ([] : List Str))
           else (el, []))) ∧
      (ComponentScaffolder.variantHit comp (toL "type") v = false →
        ComponentScaffolder.applyProps comp [(toL "type", v)] el =
          (if el.tag ∈ [toL "button", toL "input"] then
            (ComponentScaffolder.setAttr el (toL "type")
              (ComponentScaffolder.propValueToAttr v), ([] : List Str))
           else (el, []))) := by
  intro comp el k v
  have hfold : ∀ (k2 : Str) (v2 : PropValue),
      ComponentScaffolder.applyProps comp [(k2, v2)] el =
        ComponentScaffolder.applyPropsStep comp (el, []) (k2, v2) := fun _ _ => rfl
  refine ⟨?_, ?_, ?_, ?_, ?_⟩
  · intro h1 h2 h3
    rw [hfold]
    have h2m : k ∉ ComponentScaffolder.intrinsicPropNames := by
      simpa using h2
    simp [ComponentScaffolder.applyPropsStep, h1, h2m, h3]
  · intro h1 h2
    rw [hfold]
    simp [ComponentScaffolder.applyPropsStep, h1, h2, applyProp_ariaLabel]
  · intro h1 h2
    rw [hfold]
    simp [ComponentScaffolder.applyPropsStep, h1, h2, applyProp_role]
  · intro h1
    rw [hfold]
    have hcm : toL "href" ∈ ComponentScaffolder.intrinsicPropNames := by decide
    simp [ComponentScaffolder.applyPropsStep, h1, hcm, applyProp_href]
  · intro h1
    rw [hfold]
    have hcm : toL "type" ∈ ComponentScaffolder.intrinsicPropNames := by decide
    simp [ComponentScaffolder.applyPropsStep, h1, hcm, applyProp_type]

/-- Witness for C7: on a Button component that declares no props and no
variants, the unknown key `tooltip` warns; on one declaring `ariaLabel` in
its props record, `aria-label` is set; `href` on a button element is a
no-op while `type` is applied. -/
theorem C7_intrinsic_attribute_dispatch_witness :
    ComponentScaffolder.applyProps
        { (default : MADEComponent) with name := toL "Button" }
        [(toL "tooltip", PropValue.bool true)]
        ⟨toL "button", [], toL "Go"⟩ =
      (⟨toL "button", [], toL "Go"⟩,
       [ComponentScaffolder.unknownPropNote (toL "tooltip") (toL "Button")]) ∧
    ComponentScaffolder.applyProps
        { (default : MADEComponent) with
            name := toL "Button"
            props := [(toL "ariaLabel", PropValue.str (toL ""))] }
        [(toL "ariaLabel", PropValue.str (toL "Close"))]
        ⟨toL "button", [], toL "Go"⟩ =
      (ComponentScaffolder.setAttr ⟨toL "button", [], toL "Go"⟩ (toL "aria-label")
        (toL "Close"), []) ∧
    ComponentScaffolder.applyProps
        { (default : MADEComponent) with name := toL "Button" }
        [(toL "href", PropValue.str (toL "/x"))]
        ⟨toL "button", [], toL "Go"⟩ =
      (⟨toL "button", [], toL "Go"⟩, []) ∧
    ComponentScaffolder.applyProps
        { (default : MADEComponent) with name := toL "Button" }
        [(toL "type", PropValue.str (toL "submit"))]
        ⟨toL "button", [], toL "Go"⟩ =
      (ComponentScaffolder.setAttr ⟨toL "button", [], toL "Go"⟩ (toL "type")
        (toL "submit"), []) := by
  refine ⟨?_, ?_, ?_, ?_⟩
  · exact (C7_intrinsic_attribute_dispatch
      { (default : MADEComponent) with name := toL "Button" }
      ⟨toL "button", [], toL "Go"⟩ (toL "tooltip") (PropValue.bool true)).1
      (by decide) (by decide) (by decide)
  · exact (C7_intrinsic_attribute_dispatch
      { (default : MADEComponent) with
          name := toL "Button"
          props := [(toL "ariaLabel", PropValue.str (toL ""))] }
      ⟨toL "button", [], toL "Go"⟩ (toL "ariaLabel")
      (PropValue.str (toL "Close"))).2.1 (by decide) (by decide)
  · have h := (C7_intrinsic_attribute_dispatch
      { (default : MADEComponent) with name := toL "Button" }
      ⟨toL "button", [], toL "Go"⟩ (toL "href")
      (PropValue.str (toL "/x"))).2.2.2.1 (by decide)
    rw [h]
    decide
  · have h := (C7_intrinsic_attribute_dispatch
      { (default : MADEComponent) with name := toL "Button" }
      ⟨toL "button", [], toL "Go"⟩ (toL "type")
      (PropValue.str (toL "submit"))).2.2.2.2 (by decide)
    rw [h]
    decide

/-- Counterexample for C7 as stated: on a component that declares no props,
a `props` entry `ariaLabel` (or `role`) does not set any attribute — it
falls through to the unknown-prop warning, because the dispatch allow-list
on line 67 omits both names. -/
theorem C7_counterexample :
    ComponentScaffolder.applyProps
        { (default : MADEComponent) with name := toL "Button" }
        [(toL "ariaLabel", PropValue.str (toL "Close"))]
        ⟨toL "button", [(toL "class", toL "made-btn")], toL "Go"⟩ =
      (⟨toL "button", [(toL "class", toL "made-btn")], toL "Go"⟩,
       [toL "Warning: Unknown prop \x27ariaLabel\x27 for component Button"]) ∧
    ComponentScaffolder.getAttr
      (ComponentScaffolder.applyProps
        { (default : MADEComponent) with name := toL "Button" }
        [(toL "ariaLabel", PropValue.str (toL "Close"))]
        ⟨toL "button", [(toL "class", toL "made-btn")], toL "Go"⟩).1
      (toL "aria-label") = none ∧
    ComponentScaffolder.applyProps
        { (default : MADEComponent) with name := toL "Button" }
        [(toL "role", PropValue.str (toL "alert"))]
        ⟨toL "button", [(toL "class", toL "made-btn")], toL "Go"⟩ =
      (⟨toL "button", [(toL "class", toL "made-btn")], toL "Go"⟩,
       [toL "Warning: Unknown prop \x27role\x27 for component Button"]) := by
  decide

/-! ### Claim C8 -/

theorem length_filter_contains (l1 l2 : List Str) (h : l1.Nodup) :
    (l1.filter (fun x => l2.contains x)).length =
      (l1.toFinset ∩ l2.toFinset).card := by
  have hnd : (l1.filter (fun x => l2.contains x)).Nodup := h.filter _
  rw [← List.toFinset_card_of_nodup hnd]
  congr 1
  ext x
  simp [List.mem_filter, List.elem_iff]

/-- Claim C8 (corrected): in `calculateComponentSimilarity` the tag and
class overlap terms are normalized by the larger of the two set sizes
(floored at 1), not by the union size; only the variant-axis term is
normalized by the union size (floored at 1).  Stated over components whose
tag, class, and variant-key lists are duplicate-free, with the overlap as
the cardinality of the set intersection. -/
theorem C8_component_similarity_formula :
    ∀ c1 c2 : MADEComponent,
      c1.tags.Nodup → c1.cssClasses.Nodup → (c1.variants.map Prod.fst).Nodup →
      SearchEngine.calculateComponentSimilarity c1 c2 =
        ((c1.tags.toFinset ∩ c2.tags.toFinset).card : ℚ) /
          ((max c1.tags.length (max c2.tags.length 1) : Nat) : ℚ) * (4/10) +
        ((c1.cssClasses.toFinset ∩ c2.cssClasses.toFinset).card : ℚ) /
          ((max c1.cssClasses.length (max c2.cssClasses.length 1) : Nat) : ℚ) * (3/10) +
        (((c1.variants.map Prod.fst).toFinset ∩
            (c2.variants.map Prod.fst).toFinset).card : ℚ) /
          ((max ((c1.variants.map Prod.fst).toFinset ∪
              (c2.variants.map Prod.fst).toFinset).card 1 : Nat) : ℚ) * (3/10) := by
  intro c1 c2 htags hclasses hkeys
  simp only [SearchEngine.calculateComponentSimilarity]
  rw [length_filter_contains c1.tags c2.tags htags,
    length_filter_contains c1.cssClasses c2.cssClasses hclasses,
    length_filter_contains (c1.variants.map Prod.fst) (c2.variants.map Prod.fst) hkeys,
    length_uniqueFirst_eq_card, List.toFinset_append]

/-- Witness for C8 on concrete duplicate-free components. -/
theorem C8_component_similarity_formula_witness :
    SearchEngine.calculateComponentSimilarity
        { (default : MADEComponent) with tags := [toL "a", toL "b"] }
        { (default : MADEComponent) with tags := [toL "b", toL "c"] } =
      ((({ (default : MADEComponent) with
            tags := [toL "a", toL "b"] } : MADEComponent).tags.toFinset ∩
          ({ (default : MADEComponent) with
            tags := [toL "b", toL "c"] } : MADEComponent).tags.toFinset).card : ℚ) /
        ((max 2 (max 2 1) : Nat) : ℚ) * (4/10) +
      ((0 : Nat) : ℚ) / ((max 0 (max 0 1) : Nat) : ℚ) * (3/10) +
      ((0 : Nat) : ℚ) / ((max 0 1 : Nat) : ℚ) * (3/10) :=
  C8_component_similarity_formula
    { (default : MADEComponent) with tags := [toL "a", toL "b"] }
    { (default : MADEComponent) with tags := [toL "b", toL "c"] }
    (by decide) (by decide) (by decide)

/-- Components used only by the C8 counterexample. -/
def C8compA : MADEComponent := { (default : MADEComponent) with tags := [toL "a", toL "b"] }

def C8compB : MADEComponent := { (default : MADEComponent) with tags := [toL "b", toL "c"] }

/-- Counterexample for C8 as stated: for tag sets of sizes 2 and 2 with
union 3 and intersection 1, the code computes a tag term of
(1/2) * 0.4 = 0.2 while the claimed intersection-over-union formula gives
(1/3) * 0.4; the two similarity values differ. -/
theorem C8_counterexample :
    SearchEngine.calculateComponentSimilarity C8compA C8compB ≠
      SearchEngine.claimSimilarityC8 C8compA C8compB := by
  rw [show SearchEngine.calculateComponentSimilarity C8compA C8compB =
    ((1:Nat):ℚ)/((2:Nat):ℚ) * (4/10) + ((0:Nat):ℚ)/((1:Nat):ℚ) * (3/10) +
    ((0:Nat):ℚ)/((1:Nat):ℚ) * (3/10) from rfl]
  rw [show SearchEngine.claimSimilarityC8 C8compA C8compB =
    ((4:ℚ)/10) * (((1:Nat):ℚ)/((3:Nat):ℚ)) + ((3:ℚ)/10) * (((0:Nat):ℚ)/((1:Nat):ℚ)) +
    ((3:ℚ)/10) * (((0:Nat):ℚ)/((1:Nat):ℚ)) from rfl]
  norm_num

/-! ### Claim C1 -/

theorem getD_append_length {α : Type} (l : List α) (x d : α) :
    (l ++ [x]).getD l.length d = x := by
  rw [List.getD_eq_getElem?_getD, List.getElem?_append_right (le_refl _)]
  simp

theorem getD_append_lt {α : Type} (l : List α) (tail : List α) (d : α) (i : Nat)
    (h : i < l.length) : (l ++ tail).getD i d = l.getD i d := by
  rw [List.getD_eq_getElem?_getD, List.getD_eq_getElem?_getD, List.getElem?_append,
    if_pos h]

theorem getD_set_ne {α : Type} (l : List α) (i j : Nat) (x d : α) (h : i ≠ j) :
    (l.set i x).getD j d = l.getD j d := by
  rw [List.getD_eq_getElem?_getD, List.getD_eq_getElem?_getD, List.getElem?_set_ne h]

/-- Claim C1 (corrected): `getTokens` and `getComponents` allocate a fresh
array object whose contents deep-equal the dataset at the moment of the
call, so reading leaves the dataset unchanged and structurally mutating the
returned array (adding, removing or replacing entries) never affects the
dataset; but the element objects are shared — a mutation of a token object
is seen identically through the returned array and the authoritative
dataset — and `getIndexMeta` returns the manager's meta reference itself
with no copy at all. -/
theorem C1_accessor_copy_semantics :
    ∀ (st : IndexManager.Store) (m : IndexManager.ManagerRefs),
      m.tokensArr < st.tokenArrs.length →
      m.componentsArr < st.compArrs.length →
      ((IndexManager.getTokensOp st m).2 ≠ m.tokensArr ∧
       IndexManager.viewTokenArr (IndexManager.getTokensOp st m).1
         (IndexManager.getTokensOp st m).2 = IndexManager.datasetTokens st m ∧
       IndexManager.datasetTokens (IndexManager.getTokensOp st m).1 m =
         IndexManager.datasetTokens st m ∧
       (∀ contents, IndexManager.datasetTokens
          (IndexManager.mutateTokenArr (IndexManager.getTokensOp st m).1
            (IndexManager.getTokensOp st m).2 contents) m =
          IndexManager.datasetTokens st m)) ∧
      ((IndexManager.getComponentsOp st m).2 ≠ m.componentsArr ∧
       IndexManager.viewCompArr (IndexManager.getComponentsOp st m).1
         (IndexManager.getComponentsOp st m).2 = IndexManager.datasetComponents st m ∧
       IndexManager.datasetComponents (IndexManager.getComponentsOp st m).1 m =
         IndexManager.datasetComponents st m ∧
       (∀ contents, IndexManager.datasetComponents
          (IndexManager.mutateCompArr (IndexManager.getComponentsOp st m).1
            (IndexManager.getComponentsOp st m).2 contents) m =
          IndexManager.datasetComponents st m)) ∧
      IndexManager.getIndexMetaOp st m = m.metaRef ∧
      (∀ r t, IndexManager.viewTokenArr
          (IndexManager.mutateTokenObj (IndexManager.getTokensOp st m).1 r t)
          (IndexManager.getTokensOp st m).2 =
        IndexManager.datasetTokens
          (IndexManager.mutateTokenObj (IndexManager.getTokensOp st m).1 r t) m) := by
  intro st m htok hcomp
  refine ⟨⟨?_, ?_, ?_, ?_⟩, ⟨?_, ?_, ?_, ?_⟩, rfl, ?_⟩
  · exact fun heq => absurd heq.symm (Nat.ne_of_lt htok)
  · simp only [IndexManager.getTokensOp, IndexManager.viewTokenArr,
      IndexManager.datasetTokens]
    rw [getD_append_length]
  · simp only [IndexManager.getTokensOp, IndexManager.viewTokenArr,
      IndexManager.datasetTokens]
    rw [getD_append_lt _ _ _ _ htok]
  · intro contents
    simp only [IndexManager.getTokensOp, IndexManager.mutateTokenArr,
      IndexManager.viewTokenArr, IndexManager.datasetTokens]
    rw [getD_set_ne _ _ _ _ _ (Nat.ne_of_gt htok), getD_append_lt _ _ _ _ htok]
  · exact fun heq => absurd heq.symm (Nat.ne_of_lt hcomp)
  · simp only [IndexManager.getComponentsOp, IndexManager.viewCompArr,
      IndexManager.datasetComponents]
    rw [getD_append_length]
  · simp only [IndexManager.getComponentsOp, IndexManager.viewCompArr,
      IndexManager.datasetComponents]
    rw [getD_append_lt _ _ _ _ hcomp]
  · intro contents
    simp only [IndexManager.getComponentsOp, IndexManager.mutateCompArr,
      IndexManager.viewCompArr, IndexManager.datasetComponents]
    rw [getD_set_ne _ _ _ _ _ (Nat.ne_of_gt hcomp), getD_append_lt _ _ _ _ hcomp]
  · intro r t
    simp only [IndexManager.getTokensOp, IndexManager.mutateTokenObj,
      IndexManager.viewTokenArr, IndexManager.datasetTokens]
    rw [getD_append_length, getD_append_lt _ _ _ _ htok]

/-- Witness for C1: the copy semantics applied to a concrete store with one
token object, one empty component array, and a meta object. -/
theorem C1_accessor_copy_semantics_witness :
    ((IndexManager.getTokensOp
        ⟨[⟨toL "--made-a", toL "1px", TokenCategory.other, none⟩], [], [default],
         [[0]], [[]]⟩ ⟨0, 0, some 0⟩).2 ≠ (0 : Nat)) ∧
    IndexManager.getIndexMetaOp
        ⟨[⟨toL "--made-a", toL "1px", TokenCategory.other, none⟩], [], [default],
         [[0]], [[]]⟩ ⟨0, 0, some 0⟩ = some 0 :=
  ⟨((C1_accessor_copy_semantics
      ⟨[⟨toL "--made-a", toL "1px", TokenCategory.other, none⟩], [], [default],
       [[0]], [[]]⟩ ⟨0, 0, some 0⟩ (by decide) (by decide)).1).1,
   ((C1_accessor_copy_semantics
      ⟨[⟨toL "--made-a", toL "1px", TokenCategory.other, none⟩], [], [default],
       [[0]], [[]]⟩ ⟨0, 0, some 0⟩ (by decide) (by decide)).2).2.1⟩

/-- Counterexample for C1 as stated: mutating a token object reached
through the array returned by `getTokens` changes the in-memory dataset
(the spread copies the array, not the token objects), and `getIndexMeta`
hands out the meta reference itself, so mutating the returned meta record
changes the dataset's meta. -/
theorem C1_counterexample :
    (IndexManager.datasetTokens
        (IndexManager.mutateTokenObj
          (IndexManager.getTokensOp
            ⟨[⟨toL "--made-a", toL "1px", TokenCategory.other, none⟩], [], [default],
             [[0]], [[]]⟩ ⟨0, 0, some 0⟩).1
          0 ⟨toL "--made-a", toL "2px", TokenCategory.other, none⟩)
        ⟨0, 0, some 0⟩ ≠
      IndexManager.datasetTokens
        ⟨[⟨toL "--made-a", toL "1px", TokenCategory.other, none⟩], [], [default],
         [[0]], [[]]⟩ ⟨0, 0, some 0⟩) ∧
    (IndexManager.datasetMeta
        (IndexManager.mutateMetaObj
          ⟨[⟨toL "--made-a", toL "1px", TokenCategory.other, none⟩], [], [default],
           [[0]], [[]]⟩ 0 { (default : IndexMeta) with version := toL "2.0.0" })
        ⟨0, 0, some 0⟩ ≠
      IndexManager.datasetMeta
        ⟨[⟨toL "--made-a", toL "1px", TokenCategory.other, none⟩], [], [default],
         [[0]], [[]]⟩ ⟨0, 0, some 0⟩) := by
  decide

/-! ### Claim C4 -/

theorem rankLE_iff (terms : List Str) (a b : Nat × SearchResult) :
    SearchEngine.rankLE terms a b = true ↔
      (SearchEngine.calculateRelevance b.2 terms <
          SearchEngine.calculateRelevance a.2 terms ∨
        (SearchEngine.calculateRelevance a.2 terms =
            SearchEngine.calculateRelevance b.2 terms ∧ a.1 ≤ b.1)) := by
  simp only [SearchEngine.rankLE]
  split_ifs with h
  · simp only [decide_eq_true_eq]
    constructor
    · intro hle
      exact Or.inr ⟨h, hle⟩
    · rintro (hlt | ⟨-, hle⟩)
      · omega
      · exact hle
  · simp only [decide_eq_true_eq]
    constructor
    · intro hlt
      exact Or.inl hlt
    · rintro (hlt | ⟨heq, -⟩)
      · exact hlt
      · exact absurd heq h

theorem rankLE_trans (terms : List Str) (a b c : Nat × SearchResult)
    (hab : SearchEngine.rankLE terms a b = true)
    (hbc : SearchEngine.rankLE terms b c = true) :
    SearchEngine.rankLE terms a c = true := by
  rw [rankLE_iff] at hab hbc ⊢
  omega

theorem rankLE_total (terms : List Str) (a b : Nat × SearchResult) :
    (SearchEngine.rankLE terms a b || SearchEngine.rankLE terms b a) = true := by
  rw [Bool.or_eq_true, rankLE_iff, rankLE_iff]
  omega

/-- The relevance score in closed form: the source's sequential
accumulation equals the sum of a 10-point start-of-title bonus, 5 points
per term in the title, 2 points per term in the markup, a 3-point bonus for
a scaffold-style title (contains `Component`, no colon), and a 1-point
conciseness bonus for markup of nonzero length under 1000 characters. -/
theorem calculateRelevance_closed (r : SearchResult) (terms : List Str) :
    SearchEngine.calculateRelevance r terms =
      (if terms.any (fun t => containsSub (lowerStr r.title) t &&
          startsWithL (lowerStr r.title) t) then 10 else 0) +
      5 * terms.countP (containsSub (lowerStr r.title)) +
      2 * terms.countP (containsSub (lowerStr r.html)) +
      (if containsSub r.title (toL "Component") && !containsSub r.title (toL ":")
        then 3 else 0) +
      (if 0 < r.html.length ∧ r.html.length < 1000 then 1 else 0) := by
  simp only [SearchEngine.calculateRelevance]
  rw [foldl_add_if, foldl_add_if]
  split_ifs <;> omega

/-- Claim C4 (corrected): `search` returns at most 50 results; every
candidate is ranked (the ranked list is a permutation of the indexed
candidate list); the output is sorted by non-increasing relevance; the sort
is stable — candidates with equal scores keep their insertion order; and
the per-candidate score is the claimed sum, except that the 1-point
conciseness bonus requires the markup to be nonempty in addition to being
under 1000 characters. -/
theorem C4_search_ranking :
    ∀ (comps : List MADEComponent) (query : Str),
      (SearchEngine.searchFn comps query).length ≤ 50 ∧
      (SearchEngine.searchRanked comps query).Perm
        ((SearchEngine.searchCandidates comps query).enum) ∧
      (SearchEngine.searchFn comps query).Pairwise (fun a b =>
        SearchEngine.calculateRelevance b
            (SearchEngine.extractSearchTerms (lowerStr query)) ≤
          SearchEngine.calculateRelevance a
            (SearchEngine.extractSearchTerms (lowerStr query))) ∧
      (SearchEngine.searchRanked comps query).Pairwise (fun a b =>
        SearchEngine.calculateRelevance a.2
            (SearchEngine.extractSearchTerms (lowerStr query)) =
          SearchEngine.calculateRelevance b.2
            (SearchEngine.extractSearchTerms (lowerStr query)) →
        a.1 < b.1) ∧
      (∀ (r : SearchResult) (terms : List Str),
        SearchEngine.calculateRelevance r terms =
          (if terms.any (fun t => containsSub (lowerStr r.title) t &&
              startsWithL (lowerStr r.title) t) then 10 else 0) +
          5 * terms.countP (containsSub (lowerStr r.title)) +
          2 * terms.countP (containsSub (lowerStr r.html)) +
          (if containsSub r.title (toL "Component") && !containsSub r.title (toL ":")
            then 3 else 0) +
          (if 0 < r.html.length ∧ r.html.length < 1000 then 1 else 0)) := by
  intro comps query
  have hsorted : (SearchEngine.searchRanked comps query).Pairwise
      (fun a b => SearchEngine.rankLE
        (SearchEngine.extractSearchTerms (lowerStr query)) a b = true) := by
    haveI : IsTotal (Nat × SearchResult) (fun a b => SearchEngine.rankLE
        (SearchEngine.extractSearchTerms (lowerStr query)) a b = true) :=
      ⟨fun a b => by
        have h := rankLE_total (SearchEngine.extractSearchTerms (lowerStr query)) a b
        rw [Bool.or_eq_true] at h
        exact h⟩
    haveI : IsTrans (Nat × SearchResult) (fun a b => SearchEngine.rankLE
        (SearchEngine.extractSearchTerms (lowerStr query)) a b = true) :=
      ⟨fun a b c => rankLE_trans _ a b c⟩
    exact List.sorted_insertionSort
      (fun a b => SearchEngine.rankLE
        (SearchEngine.extractSearchTerms (lowerStr query)) a b = true)
      ((SearchEngine.searchCandidates comps query).enum)
  have hperm : (SearchEngine.searchRanked comps query).Perm
      ((SearchEngine.searchCandidates comps query).enum) :=
    List.perm_insertionSort _ _
  refine ⟨?_, hperm, ?_, ?_, fun r terms => calculateRelevance_closed r terms⟩
  · exact List.length_take_le _ _
  · have hmap : ((SearchEngine.searchRanked comps query).map Prod.snd).Pairwise
        (fun a b => SearchEngine.calculateRelevance b
            (SearchEngine.extractSearchTerms (lowerStr query)) ≤
          SearchEngine.calculateRelevance a
            (SearchEngine.extractSearchTerms (lowerStr query))) := by
      rw [List.pairwise_map]
      refine hsorted.imp ?_
      intro a b hab
      rw [rankLE_iff] at hab
      omega
    exact List.Pairwise.sublist (List.take_sublist 50 _) hmap
  · have hfstnodup : ((SearchEngine.searchRanked comps query).map Prod.fst).Nodup := by
      rw [(hperm.map Prod.fst).nodup_iff, List.enum_map_fst]
      exact List.nodup_range _
    have hne : (SearchEngine.searchRanked comps query).Pairwise
        (fun a b : Nat × SearchResult => a.1 ≠ b.1) := by
      rw [← List.pairwise_map (f := Prod.fst)]
      exact hfstnodup
    refine (hsorted.and hne).imp ?_
    intro a b hab heq
    obtain ⟨h1, h2⟩ := hab
    rw [rankLE_iff] at h1
    omega

/-- Component used only by the C4 counterexample: matches the query via its
tag and has no examples, so its scaffold result carries empty markup. -/
def C4compA : MADEComponent :=
  { name := toL "Aaa", description := [], tags := [toL "zzz"], variants := [],
    props := [], a11yNotes := none, htmlScaffold := [], cssClasses := [],
    cssVarsUsed := [], examples := [] }

/-- Component used only by the C4 counterexample: matches the query via its
tag and owns one short example whose markup does not mention the query. -/
def C4compB : MADEComponent :=
  { name := toL "Bbb", description := [], tags := [toL "zzz"], variants := [],
    props := [], a11yNotes := none, htmlScaffold := [], cssClasses := [],
    cssVarsUsed := [], examples := [⟨toL "Ex", toL "<div>hi</div>", none, []⟩] }

/-- The scaffold result the search produces for `C4compA`. -/
def C4resA : SearchResult :=
  { component := toL "Aaa", title := toL "Aaa Component", html := [],
    sourcePath := toL "components/aaa", upstreamRef := toL "main" }

/-- The scaffold result the search produces for `C4compB`. -/
def C4resB : SearchResult :=
  { component := toL "Bbb", title := toL "Bbb Component", html := toL "<div>hi</div>",
    sourcePath := toL "components/bbb", upstreamRef := toL "main" }

/-- Counterexample for C4 as stated: under the claimed scoring — which
grants the 1-point conciseness bonus to any markup under 1000 characters,
the empty markup included — the two candidates tie at 4 points, so the
claimed tie rule (insertion order) would return them as [resA, resB]; but
the code scores the empty-markup candidate 3 (it withholds the bonus from
empty markup), so the search returns [resB, resA], violating the claimed
ordering. -/
theorem C4_counterexample :
    SearchEngine.searchCandidates [C4compA, C4compB] (toL "zzz") = [C4resA, C4resB] ∧
    SearchEngine.searchFn [C4compA, C4compB] (toL "zzz") = [C4resB, C4resA] ∧
    SearchEngine.claimScoreC4 C4resA (SearchEngine.extractSearchTerms (toL "zzz")) =
      SearchEngine.claimScoreC4 C4resB (SearchEngine.extractSearchTerms (toL "zzz")) ∧
    C4resA ≠ C4resB := by
  decide
